import Mathlib

/-!
Verification of the LSNP peer node (CSNETWK-MCO3) against its
natural-language specification.

The development shallowly embeds the Python source:

* `src/utils/tokens.py`     — capability tokens (`generate_token`, `validate_token`)
* `src/utils/parsers.py`    — the key-value frame codec
* `src/manager/lsnp_controller.py` — the controller: inbound dispatch
  (`_handle_kv_message`), the file-transfer state (`FileTransfer`),
  completion (`_complete_file_transfer`), and the ACK-waiter lifecycle of
  the outbound operations.

Strings are Lean `String`s; every Python string primitive the code uses
(`split`, `strip`, `splitlines`, membership) is re-implemented as a
structurally recursive function on `List Char` so that all definitions
compute by kernel reduction.  Machine time `int(time.time())` is an
explicit `now : Nat` parameter; the socket is modelled by returning the
list of datagrams a handler sends.
-/
/-! ## Python string primitives, re-implemented on `List Char` -/

/-- Whitespace set of Python `str.strip()` (ASCII part; the frames in this
protocol are ASCII). -/
def isPySpace (c : Char) : Bool :=
  c == ' ' || c == '\t' || c == '\n' || c == '\r' || c == Char.ofNat 11 || c == Char.ofNat 12

/-- Python `s.strip()`. -/
def pyStrip (l : List Char) : List Char :=
  ((l.dropWhile isPySpace).reverse.dropWhile isPySpace).reverse

/-- Python `s.split(sep)` for a one-character separator: always returns a
non-empty list of (possibly empty) groups. -/
def splitChar (sep : Char) : List Char → List (List Char)
  | [] => [[]]
  | c :: rest =>
    if c = sep then [] :: splitChar sep rest
    else
      match splitChar sep rest with
      | [] => [[c]]
      | g :: gs => (c :: g) :: gs

/-- Last element of a list with a default, modelling Python `xs[-1]` on the
(always non-empty) result of `str.split`. -/
def lastD (l : List Char) : List (List Char) → List Char
  | [] => l
  | [g] => g
  | _ :: g :: gs => lastD l (g :: gs)

/-! ## Decimal rendering of naturals (Python `str(int)`) -/

/-- Decimal digit character for `d < 10`. -/
def decChar (d : Nat) : Char := Char.ofNat (48 + d)

/-- Fuel-driven decimal rendering (structural recursion, so it reduces in
the kernel). -/
def natDigitsF : Nat → Nat → List Char → List Char
  | 0, _, acc => acc
  | fuel + 1, n, acc =>
    if n < 10 then decChar (n % 10) :: acc
    else natDigitsF fuel (n / 10) (decChar (n % 10) :: acc)

/-- Decimal digits of `n`, most significant first: what Python `str(n)`
produces for a non-negative `int`. -/
def natDigits (n : Nat) : List Char := natDigitsF (n + 1) n []

/-- Value of a digit string, most significant first. -/
def valDigits (l : List Char) : Nat :=
  l.foldl (fun v c => v * 10 + (c.toNat - 48)) 0

/-! ## Python `int(str)` -/

/-- Digit-run parser used by `pyParseInt` (the part after an optional sign). -/
def parseDigitsPos (ds : List Char) : Option Int :=
  if !ds.isEmpty && ds.all Char.isDigit then some (valDigits ds : Int) else none

/-- Python `int(s)` on a decimal string: surrounding whitespace stripped,
optional sign, then a non-empty digit run; anything else raises
`ValueError`, modelled as `none`.  (Underscore digit grouping is not
modelled; no string in this code base uses it.) -/
def pyParseInt (l : List Char) : Option Int :=
  match pyStrip l with
  | [] => none
  | c :: rest =>
    if c = '+' then parseDigitsPos rest
    else if c = '-' then (parseDigitsPos rest).map (fun v => -v)
    else parseDigitsPos (c :: rest)

/-! ## Token module — `src/utils/tokens.py` -/

/-- TTL constant from `src/config/config.py`. -/
def TOKEN_TTL : Int := 600

/-- Retry constant from `src/config/config.py`. -/
def RETRY_COUNT : Nat := 3

/-- Embeds `generate_token(user_id, scope, ttl)`: the issuing time
`now = int(time.time())` is explicit.  The source builds
`f"{user_id}|{timestamp}|{scope}"`; note the `ttl` argument is never read. -/
def generate_token (now : Nat) (user_id : String) (scope : String) (ttl : Int) : String :=
  user_id ++ "|" ++ String.mk (natDigits now) ++ "|" ++ scope

/-- Embeds `validate_token(token, required_scope)`: the revocation
blacklist and the current time are explicit.  The source returns `False`
for blacklisted tokens, then splits on `"|"` into exactly three parts
(`ValueError` on any other arity is caught, giving `False`), rejects when
`now - timestamp > TOKEN_TTL`, and finally compares the scope. -/
def validate_token (blacklist : List String) (now : Nat)
    (token : String) (required_scope : String) : Bool :=
  if blacklist.contains token then false
  else
    match splitChar '|' token.data with
    | [_, ts, sc] =>
      match pyParseInt ts with
      | some t => if (now : Int) - t > TOKEN_TTL then false else String.mk sc == required_scope
      | none => false
    | _ => false

/-! ## Frame codec — `src/utils/parsers.py` -/

/-- Line-boundary characters of Python `str.splitlines`. -/
def isLineBreakChar (c : Char) : Bool :=
  c == '\n' || c == '\r' || c == Char.ofNat 11 || c == Char.ofNat 12 ||
  c == Char.ofNat 28 || c == Char.ofNat 29 || c == Char.ofNat 30 ||
  c == Char.ofNat 133 || c == Char.ofNat 8232 || c == Char.ofNat 8233

/-- Worker for `pySplitlines`: `cur` is the reversed current line and
`afterCR` records whether the previous character was a `'\r'` whose line
was already emitted, so that a following `'\n'` is part of the same
`"\r\n"` boundary. -/
def pySplitlinesAux (cur : List Char) (afterCR : Bool) : List Char → List (List Char)
  | [] => if cur = [] then [] else [cur.reverse]
  | c :: rest =>
    if afterCR && c = '\n' then pySplitlinesAux [] false rest
    else if isLineBreakChar c then cur.reverse :: pySplitlinesAux [] (c = '\r') rest
    else pySplitlinesAux (c :: cur) false rest

/-- Python `s.splitlines()`. -/
def pySplitlines (l : List Char) : List (List Char) := pySplitlinesAux [] false l

/-- Python `line.split(": ", 1)` under the guard `": " in line`: `none`
when the separator does not occur, otherwise the parts left and right of
its first occurrence. -/
def pySplitOnceColonSpace : List Char → Option (List Char × List Char)
  | [] => none
  | [_] => none
  | c :: d :: rest =>
    if c = ':' ∧ d = ' ' then some ([], rest)
    else
      match pySplitOnceColonSpace (d :: rest) with
      | none => none
      | some (k, v) => some (c :: k, v)

/-- Whether `": "` occurs as a substring. -/
def hasColonSpace : List Char → Bool
  | [] => false
  | [_] => false
  | c :: d :: rest => (c == ':' && d == ' ') || hasColonSpace (d :: rest)

/-- Python `"\n".join(lines)`. -/
def joinNL : List (List Char) → List Char
  | [] => []
  | [l] => l
  | l :: l2 :: ls => l ++ '\n' :: joinNL (l2 :: ls)

/-- Embeds `format_kv_message(fields)`: joins `f"{key}: {value}"` lines
with `"\n"` and appends `"\n\n"`.  The dict is an insertion-ordered
association list, exactly Python's iteration order. -/
def format_kv_message (fields : List (List Char × List Char)) : List Char :=
  joinNL (fields.map (fun kv => kv.1 ++ ':' :: ' ' :: kv.2)) ++ ['\n', '\n']

/-- Python dict insertion: a later assignment to an existing key updates
the value in place (keeping the key's first position). -/
def pyDictInsert (d : List (List Char × List Char)) (k v : List Char) :
    List (List Char × List Char) :=
  match d with
  | [] => [(k, v)]
  | (k0, v0) :: rest => if k0 = k then (k0, v) :: rest else (k0, v0) :: pyDictInsert rest k v

/-- Python `dict(pairs)`. -/
def pyDictOfPairs (ps : List (List Char × List Char)) : List (List Char × List Char) :=
  ps.foldl (fun d kv => pyDictInsert d kv.1 kv.2) []

/-- Embeds `parse_kv_message(msg)`:
`dict(line.split(": ", 1) for line in msg.strip().splitlines() if ": " in line)`. -/
def parse_kv_message (msg : List Char) : List (List Char × List Char) :=
  pyDictOfPairs ((pySplitlines (pyStrip msg)).filterMap pySplitOnceColonSpace)

/-! ## Python container helpers used by the controller embedding -/

/-- Python dict assignment `d[k] = v` (generic): update in place, keeping
the key's first position, or append. -/
def assocUpd {α β : Type} [DecidableEq α] : List (α × β) → α → β → List (α × β)
  | [], k, v => [(k, v)]
  | (k0, v0) :: rest, k, v =>
    if k0 = k then (k0, v) :: rest else (k0, v0) :: assocUpd rest k v

/-- Python `del d[k]` (on a key known to be present removal of the first
binding; on an absent key the source raises `KeyError`, leaving the dict
as returned here). -/
def assocRemove {α β : Type} [DecidableEq α] : List (α × β) → α → List (α × β)
  | [], _ => []
  | (k0, v0) :: rest, k => if k0 = k then rest else (k0, v0) :: assocRemove rest k

/-- Python `xs[i]` on a list: negative indices count from the end;
out-of-range raises `IndexError`, modelled as `none`. -/
def pyListGet {α : Type} (xs : List α) (i : Int) : Option α :=
  let j := if i < 0 then i + xs.length else i
  if 0 ≤ j ∧ j < (xs.length : Int) then xs.get? j.toNat else none

/-- Python `xs[i] = a` on a list, with the same index rules. -/
def pyListSet {α : Type} (xs : List α) (i : Int) (a : α) : Option (List α) :=
  let j := if i < 0 then i + xs.length else i
  if 0 ≤ j ∧ j < (xs.length : Int) then some (xs.set j.toNat a) else none

/-- Python `xs.remove(a)`: removes the first occurrence; `ValueError`
(modelled as `none`) when absent. -/
def pyListRemove {α : Type} [DecidableEq α] : List α → α → Option (List α)
  | [], _ => none
  | x :: rest, a => if x = a then some rest else (pyListRemove rest a).map (fun r => x :: r)

/-- The loop `for member in remove_parts: members.remove(member)`: removals
already performed persist when one raises `ValueError` (the Boolean records
whether the loop raised). -/
def pyRemoveEach : List String → List String → List String × Bool
  | members, [] => (members, false)
  | members, x :: rest =>
    match pyListRemove members x with
    | some ms => pyRemoveEach ms rest
    | none => (members, true)

/-- Python `str(x)` on an `Optional[str]`. -/
def pyStr : Option String → String
  | some s => s
  | none => "None"

/-- Python `s.split(sep)` on `String`s, e.g. `members.split(",")`. -/
def pySplitStr (sep : Char) (s : String) : List String :=
  (splitChar sep s.data).map String.mk

/-- Decimal string of a natural, Python `str(n)`. -/
def natStr (n : Nat) : String := String.mk (natDigits n)

/-- Python `math.ceil(a / b)` for integers, `b > 0` (floor division of
`a + b - 1`). -/
def pyCeilDiv (a b : Int) : Int := Int.fdiv (a + b - 1) b

/-! ## Base64 (Python `base64.b64decode`) -/

/-- Value of a base64 alphabet character. -/
def b64Val (c : Char) : Option Nat :=
  if 'A' ≤ c ∧ c ≤ 'Z' then some (c.toNat - 65)
  else if 'a' ≤ c ∧ c ≤ 'z' then some (c.toNat - 97 + 26)
  else if '0' ≤ c ∧ c ≤ '9' then some (c.toNat - 48 + 52)
  else if c = '+' then some 62
  else if c = '/' then some 63
  else none

/-- Base64 decoding of a properly padded input, quartet by quartet;
`none` models `binascii.Error` (caught by the chunk handler).  Python
additionally discards characters outside the alphabet before grouping;
no frame produced by this code base contains such characters. -/
def b64decodeGroups : List Char → Option (List Nat)
  | a :: b :: c :: d :: rest =>
    match b64Val a, b64Val b with
    | some va, some vb =>
      if c = '=' then
        if d = '=' ∧ rest = [] then some [va * 4 + vb / 16] else none
      else
        match b64Val c with
        | some vc =>
          if d = '=' then
            if rest = [] then some [va * 4 + vb / 16, (vb % 16) * 16 + vc / 4] else none
          else
            match b64Val d, b64decodeGroups rest with
            | some vd, some acc =>
              some ((va * 4 + vb / 16) :: ((vb % 16) * 16 + vc / 4) :: ((vc % 4) * 64 + vd) :: acc)
            | _, _ => none
        | none => none
    | _, _ => none
  | [] => some []
  | _ => none

/-- Python `base64.b64decode(s)`. -/
def b64decode (s : String) : Option (List Nat) := b64decodeGroups s.data

/-! ## Controller data model — `src/manager/lsnp_controller.py` -/

namespace LSNP

/-- Peer record (`src/protocol/types/messages/peer_format.py`). -/
structure Peer where
  user_id : String
  display_name : String
  ip : String
  port : Nat
  avatar_data : Option String
  avatar_type : Option String
deriving DecidableEq, Repr

/-- File-transfer record, `FileTransfer.__init__` (lsnp_controller.py
lines 32-46).  Chunk bytes are `List Nat`; the chunk map is an
insertion-ordered dict keyed by the (possibly negative) chunk index. -/
structure FileTransfer where
  file_id : String
  filename : String
  filesize : Int
  filetype : String
  total_chunks : Int
  sender_id : String
  description : String
  chunks : List (Int × List Nat)
  received_chunks : Nat
  accepted : Bool
  completed : Bool
  timestamp : Nat
deriving DecidableEq, Repr

/-- Embeds `FileTransfer.add_chunk` (lines 49-60): returns `False` without
any change when the transfer is not accepted; stores the bytes and bumps
the received counter only for a fresh index; sets `completed` when the
counter equals `total_chunks`.  No index-range check appears in the
source. -/
def FileTransfer.add_chunk (t : FileTransfer) (chunk_index : Int) (data : List Nat) :
    FileTransfer × Bool :=
  if !t.accepted then (t, false)
  else
    let t1 :=
      if (t.chunks.lookup chunk_index).isNone then
        { t with chunks := t.chunks ++ [(chunk_index, data)],
                 received_chunks := t.received_chunks + 1 }
      else t
    let t2 :=
      if (t1.received_chunks : Int) = t1.total_chunks then { t1 with completed := true } else t1
    (t2, true)

/-- Ordered chunk concatenation over `range(total_chunks)`, `none` when an
index in range is missing. -/
def collectChunks (chunks : List (Int × List Nat)) : List Int → Option (List Nat)
  | [] => some []
  | i :: rest =>
    match chunks.lookup i, collectChunks chunks rest with
    | some d, some acc => some (d ++ acc)
    | _, _ => none

/-- Python `range(n)` for an `int` bound, as `Int` indices. -/
def intRange (n : Int) : List Int := (List.range n.toNat).map (fun i => (i : Int))

/-- Embeds `FileTransfer.get_assembled_data` (lines 62-72). -/
def FileTransfer.get_assembled_data (t : FileTransfer) : Option (List Nat) :=
  if !t.completed then none
  else collectChunks t.chunks (intRange t.total_chunks)

/-- Group record (`Group.__init__`, lines 75-81; `created_at` holds the
numeric value the source stores as `str(int(time.time()))`). -/
structure Group where
  group_id : String
  group_name : String
  owner_id : String
  members : List String
  created_at : Nat
deriving DecidableEq, Repr

/-- Tic-Tac-Toe session dict: cells start as `some " "`; an inbound
`TICTACTOE_MOVE` writes `kv.get("SYMBOL")`, which is `None` when the field
is missing, hence the `Option`. -/
structure TTTGame where
  board : List (Option String)
  my_symbol : String
  opponent : String
  turn : Int
  active : Bool
deriving DecidableEq, Repr

/-- IP-activity tracker state (`src/network/ip_tracker.py`). -/
structure IPAddressTracker where
  known_ips : List String
  ip_to_user : List (String × String)
  connection_attempts : List (String × Nat)
  blocked_ips : List String
deriving DecidableEq, Repr

/-- Embeds `IPAddressTracker.log_new_ip`. -/
def IPAddressTracker.log_new_ip (tr : IPAddressTracker) (ip : String) (user_id : String) :
    IPAddressTracker :=
  if tr.known_ips.contains ip then tr
  else
    { tr with
      known_ips := tr.known_ips ++ [ip],
      ip_to_user := if user_id ≠ "" then assocUpd tr.ip_to_user ip user_id else tr.ip_to_user }

/-- Embeds `IPAddressTracker.log_connection_attempt`: unconditionally
increments the per-IP attempt counter (the port and success flag are only
logged). -/
def IPAddressTracker.log_connection_attempt (tr : IPAddressTracker) (ip : String) :
    IPAddressTracker :=
  { tr with connection_attempts :=
      assocUpd tr.connection_attempts ip ((tr.connection_attempts.lookup ip).getD 0 + 1) }

/-- Controller state: the mutable collections of `LSNPController.__init__`
(lines 84-122) that inbound handling can touch.  `ack_events` maps a
waiter key to whether its `threading.Event` is set. -/
structure LSNPController where
  full_user_id : String
  display_name : String
  peer_map : List (String × Peer)
  inbox : List String
  groups : List Group
  followers : List String
  following : List String
  ack_events : List (String × Bool)
  active_transfers : List (String × FileTransfer)
  pending_offers : List (String × FileTransfer)
  file_response_events : List (String × Bool)
  file_responses : List (String × String)
  post_likes : List String
  tictactoe_games : List (String × TTTGame)
  ip_tracker : IPAddressTracker
deriving DecidableEq, Repr

/-- One `socket.sendto` call. -/
structure SentMsg where
  payload : String
  ip : String
  port : Nat
deriving DecidableEq, Repr

/-- Externally visible effects of handling one datagram: frames sent and
files written into the downloads directory. -/
structure Effects where
  sent : List SentMsg
  writes : List (String × List Nat)
deriving DecidableEq, Repr

/-- No effects. -/
def noEffects : Effects := ⟨[], []⟩

/-- Effects consisting only of sends. -/
def sendEffects (msgs : List SentMsg) : Effects := ⟨msgs, []⟩

end LSNP

/-! ## Inbound dispatch — `LSNPController._handle_kv_message` -/

namespace LSNP

/-- Python `kv.get(k)` on the parsed frame dict. -/
def kvGet (kv : List (String × String)) (k : String) : Option String := kv.lookup k

/-- Python `kv.get(k, d)`. -/
def kvGetD (kv : List (String × String)) (k : String) (d : String) : String :=
  (kv.lookup k).getD d

/-- Python `user_id.split('@')[0]`, the display fallback. -/
def shortName (user_id : String) : String :=
  String.mk ((splitChar '@' user_id.data).headD [])

/-- Python `from_id.split("@")[-1]`, the IP suffix used by the security
check. -/
def ipSuffix (user_id : String) : String :=
  String.mk (lastD [] (splitChar '@' user_id.data))

/-- Embeds `LSNPController._failed_security_check` (lines 204-211):
`True` (drop) when `from_id` is empty or has no `'@'`, or when its IP
suffix differs from the datagram source IP. -/
def failedSecurityCheck (from_id : String) (sender_ip : String) : Bool :=
  if from_id ≠ "" ∧ from_id.data.contains '@' = true then
    ipSuffix from_id != sender_ip
  else true

/-- `format_kv_message` lifted to `String` fields (used by the
`make_*_message` constructors of `message_formats.py`). -/
def formatKv (fields : List (String × String)) : String :=
  String.mk (format_kv_message (fields.map (fun kv => (kv.1.data, kv.2.data))))

/-- Embeds `make_ack_message` (message_formats.py lines 48-53). -/
def make_ack_message (message_id : String) : String :=
  formatKv [("TYPE", "ACK"), ("MESSAGE_ID", message_id), ("STATUS", "RECEIVED")]

/-- The `self._send_ack(message_id, addr)` frame. -/
def sendAck (message_id : String) (addr : String × Nat) : SentMsg :=
  ⟨make_ack_message message_id, addr.1, addr.2⟩

/-- Embeds `make_tictactoe_result_message` (message_formats.py lines
175-188). -/
def make_tictactoe_result_message (from_id to_id gameid result symbol win_line_str
    message_id : String) (timestamp : Nat) (token : String) : String :=
  formatKv [("TYPE", "TICTACTOE_RESULT"), ("FROM", from_id), ("TO", to_id),
    ("GAMEID", gameid), ("MESSAGE_ID", message_id), ("RESULT", result),
    ("SYMBOL", symbol), ("WINNING_LINE", win_line_str),
    ("TIMESTAMP", natStr timestamp), ("TOKEN", token)]

/-- Display-name resolution of the DM branch (lines 267-279): the short
handle, the own display name for self, else the first matching peer. -/
def resolveDisplayName (st : LSNPController) (from_id : String) : String :=
  if from_id = st.full_user_id then st.display_name
  else
    match (st.peer_map.map Prod.snd).find? (fun p => p.user_id == from_id) with
    | some p => p.display_name
    | none => shortName from_id

/-- Display-name resolution of the POST branch (lines 328-334): first
matching peer's display name if truthy, else the short handle. -/
def resolveDisplayNamePost (st : LSNPController) (from_id : String) : String :=
  match (st.peer_map.map Prod.snd).find? (fun p => p.user_id == from_id) with
  | some p => if p.display_name = "" then shortName from_id else p.display_name
  | none => shortName from_id

/-- The eight winning lines of `GameManager._check_ttt_winner`. -/
def TTT_WINS : List (Nat × Nat × Nat) :=
  [(0, 1, 2), (3, 4, 5), (6, 7, 8), (0, 3, 6), (1, 4, 7), (2, 5, 8), (0, 4, 8), (2, 4, 6)]

/-- Cell access `board[i]` (boards always have nine cells). -/
def cellAt (board : List (Option String)) (i : Nat) : Option String :=
  (board.get? i).getD none

/-- Worker for `checkTTTWinner`. -/
def checkTTTWinnerGo (board : List (Option String)) :
    List (Nat × Nat × Nat) → Option String × Option (Nat × Nat × Nat)
  | [] => if board.contains (some " ") then (none, none) else (some "DRAW", none)
  | (a, b, c) :: rest =>
    if cellAt board a ≠ some " " ∧ cellAt board a = cellAt board b ∧
        cellAt board b = cellAt board c then
      (cellAt board a, some (a, b, c))
    else checkTTTWinnerGo board rest

/-- Embeds `GameManager._check_ttt_winner` (tictactoe.py lines 24-35). -/
def checkTTTWinner (board : List (Option String)) :
    Option String × Option (Nat × Nat × Nat) :=
  checkTTTWinnerGo board TTT_WINS

/-- Python truthiness of the `winner` value (`if winner:`). -/
def winnerTruthy (winner : Option String) : Bool :=
  match winner with
  | none => false
  | some w => w != ""

/-- Embeds `LSNPController.send_tictactoe_result` (lines 1789-1816):
`fresh_id` models `str(uuid.uuid4())[:8]`.  The game is deactivated only
after a successful peer lookup and send. -/
def send_tictactoe_result (now : Nat) (fresh_id : String) (st : LSNPController)
    (gameid : String) (winner : Option String) (line : Option (Nat × Nat × Nat)) :
    LSNPController × List SentMsg :=
  match st.tictactoe_games.lookup gameid with
  | none => (st, [])
  | some game =>
    let peer_id := game.opponent
    let result :=
      if winner = some "DRAW" then "DRAW"
      else if winner = some game.my_symbol then "WIN" else "LOSS"
    let win_line_str :=
      match line with
      | some (a, b, c) => natStr a ++ "," ++ natStr b ++ "," ++ natStr c
      | none => ""
    let msg := make_tictactoe_result_message st.full_user_id peer_id gameid result
      game.my_symbol win_line_str fresh_id now (generate_token now st.full_user_id "game" TOKEN_TTL)
    match st.peer_map.lookup peer_id with
    | none => (st, [])
    | some peer =>
      let games2 := assocUpd st.tictactoe_games gameid { game with active := false }
      ({ st with tictactoe_games := games2 }, [⟨msg, peer.ip, peer.port⟩])

/-- Embeds `LSNPController._send_file_received` (lines 765-781). -/
def send_file_received (now : Nat) (st : LSNPController)
    (file_id recipient_id status : String) : List SentMsg :=
  match st.peer_map.lookup recipient_id with
  | none => []
  | some peer =>
    [⟨"TYPE: FILE_RECEIVED\nFROM: " ++ st.full_user_id ++ "\nTO: " ++ recipient_id ++
      "\nFILEID: " ++ file_id ++ "\nSTATUS: " ++ status ++ "\nTIMESTAMP: " ++
      natStr now ++ "\n", peer.ip, peer.port⟩]

/-- Embeds `LSNPController._complete_file_transfer` (lines 736-763):
assembles the chunks, writes the file under `transfer.filename` inside
the downloads directory (`open(file_path, 'wb')` overwrites any existing
file of that name), sends `FILE_RECEIVED COMPLETE`, and removes the
transfer.  `if not assembled_data: return` also skips zero-byte files. -/
def complete_file_transfer (now : Nat) (st : LSNPController) (transfer : FileTransfer) :
    LSNPController × Effects :=
  match transfer.get_assembled_data with
  | none => (st, noEffects)
  | some data =>
    if data = [] then (st, noEffects)
    else
      let sent := send_file_received now st transfer.file_id transfer.sender_id "COMPLETE"
      let st2 :=
        if (st.active_transfers.lookup transfer.file_id).isSome then
          { st with active_transfers := assocRemove st.active_transfers transfer.file_id }
        else st
      (st2, ⟨sent, [(transfer.filename, data)]⟩)

/-- PROFILE branch (lines 217-240). -/
def handleProfile (st : LSNPController) (kv : List (String × String))
    (addr : String × Nat) : LSNPController × Effects :=
  let from_id := kvGetD kv "USER_ID" ""
  let display_name := kvGetD kv "DISPLAY_NAME" ""
  let avatar_data := kvGet kv "AVATAR_DATA"
  let avatar_type := kvGet kv "AVATAR_TYPE"
  let st1 := { st with ip_tracker := st.ip_tracker.log_new_ip addr.1 from_id }
  match st1.peer_map.lookup from_id with
  | none =>
    let newPeer : Peer := ⟨from_id, display_name, addr.1, addr.2, avatar_data, avatar_type⟩
    ({ st1 with peer_map := assocUpd st1.peer_map from_id newPeer }, noEffects)
  | some peer =>
    let upd : Peer :=
      { peer with
        display_name := display_name
        avatar_data := avatar_data
        avatar_type := avatar_type }
    ({ st1 with peer_map := assocUpd st1.peer_map from_id upd }, noEffects)

/-- DM branch (lines 242-284). -/
def handleDM (now : Nat) (blacklist : List String) (st : LSNPController)
    (kv : List (String × String)) (addr : String × Nat) : LSNPController × Effects :=
  let from_id := kvGetD kv "FROM" ""
  if failedSecurityCheck from_id addr.1 then (st, noEffects)
  else
    let to_id := kvGetD kv "TO" ""
    let token := kvGetD kv "TOKEN" ""
    if to_id ≠ st.full_user_id then (st, noEffects)
    else if !validate_token blacklist now token "chat" then (st, noEffects)
    else
      let content := kvGetD kv "CONTENT" ""
      let message_id := kvGetD kv "MESSAGE_ID" ""
      let timestamp := kvGetD kv "TIMESTAMP" ""
      let display_name := resolveDisplayName st from_id
      ({ st with inbox := st.inbox ++ ["[" ++ timestamp ++ "] " ++ display_name ++ ": " ++ content] },
        sendEffects [sendAck message_id addr])

/-- FOLLOW branch (lines 286-300): note the unconditional
`followers.append` after the ACK. -/
def handleFollow (st : LSNPController) (kv : List (String × String))
    (addr : String × Nat) : LSNPController × Effects :=
  let from_id := kvGetD kv "FROM" ""
  if failedSecurityCheck from_id addr.1 then (st, noEffects)
  else
    let to_id := kvGetD kv "TO" ""
    let message_id := kvGetD kv "MESSAGE_ID" ""
    let display_name := shortName from_id
    if to_id = st.full_user_id then
      ({ st with
          inbox := st.inbox ++ ["User " ++ display_name ++ " started following you."],
          followers := st.followers ++ [from_id] },
        sendEffects [sendAck message_id addr])
    else (st, noEffects)

/-- UNFOLLOW branch (lines 302-313): no `TO` check; the inbox append and
the ACK precede `followers.remove`, whose `ValueError` on an absent
follower leaves the earlier effects in place. -/
def handleUnfollow (st : LSNPController) (kv : List (String × String))
    (addr : String × Nat) : LSNPController × Effects :=
  let from_id := kvGetD kv "FROM" ""
  if failedSecurityCheck from_id addr.1 then (st, noEffects)
  else
    let message_id := kvGetD kv "MESSAGE_ID" ""
    let display_name := shortName from_id
    let st1 := { st with inbox := st.inbox ++ ["User " ++ display_name ++ " unfollowed you."] }
    match pyListRemove st1.followers from_id with
    | some fl => ({ st1 with followers := fl }, sendEffects [sendAck message_id addr])
    | none => (st1, sendEffects [sendAck message_id addr])

/-- POST branch (lines 315-337); the sender field is `USER_ID`. -/
def handlePost (now : Nat) (blacklist : List String) (st : LSNPController)
    (kv : List (String × String)) (addr : String × Nat) : LSNPController × Effects :=
  let from_id := kvGetD kv "USER_ID" ""
  if failedSecurityCheck from_id addr.1 then (st, noEffects)
  else
    let token := kvGetD kv "TOKEN" ""
    let message_id := kvGetD kv "MESSAGE_ID" ""
    if !validate_token blacklist now token "post" then (st, noEffects)
    else
      let content := kvGetD kv "CONTENT" ""
      let timestamp := kvGetD kv "TIMESTAMP" ""
      let display_name := resolveDisplayNamePost st from_id
      ({ st with inbox := st.inbox ++
          ["[" ++ timestamp ++ "] " ++ display_name ++ " (POST): " ++ content] },
        sendEffects [sendAck message_id addr])

/-- FILE_OFFER branch (dispatch lines 340-345 and `_handle_file_offer`,
lines 644-684). -/
def handleFileOffer (now : Nat) (blacklist : List String) (st : LSNPController)
    (kv : List (String × String)) (addr : String × Nat) : LSNPController × Effects :=
  let from_id := kvGetD kv "FROM" ""
  if failedSecurityCheck from_id addr.1 then (st, noEffects)
  else
    let to_id := kvGetD kv "TO" ""
    let token := kvGetD kv "TOKEN" ""
    if to_id ≠ st.full_user_id then (st, noEffects)
    else if !validate_token blacklist now token "file" then (st, noEffects)
    else
      match pyParseInt (kvGetD kv "FILESIZE" "0").data with
      | none => (st, noEffects)
      | some filesize =>
        let filename := kvGetD kv "FILENAME" ""
        let filetype := kvGetD kv "FILETYPE" ""
        let file_id := kvGetD kv "FILEID" ""
        let description := kvGetD kv "DESCRIPTION" ""
        let total_chunks := pyCeilDiv filesize 1024
        let transfer : FileTransfer :=
          ⟨file_id, filename, filesize, filetype, total_chunks, from_id, description,
            [], 0, false, false, now⟩
        ({ st with pending_offers := assocUpd st.pending_offers file_id transfer }, noEffects)

/-- FILE_CHUNK branch (dispatch lines 347-352 and `_handle_file_chunk`,
lines 686-727). -/
def handleFileChunk (now : Nat) (blacklist : List String) (st : LSNPController)
    (kv : List (String × String)) (addr : String × Nat) : LSNPController × Effects :=
  let from_id := kvGetD kv "FROM" ""
  if failedSecurityCheck from_id addr.1 then (st, noEffects)
  else
    let to_id := kvGetD kv "TO" ""
    let token := kvGetD kv "TOKEN" ""
    if to_id ≠ st.full_user_id then (st, noEffects)
    else if !validate_token blacklist now token "file" then (st, noEffects)
    else
      let file_id := kvGetD kv "FILEID" ""
      match pyParseInt (kvGetD kv "CHUNK_INDEX" "0").data,
          pyParseInt (kvGetD kv "TOTAL_CHUNKS" "0").data,
          pyParseInt (kvGetD kv "CHUNK_SIZE" "0").data with
      | some chunk_index, some _, some _ =>
        (match st.active_transfers.lookup file_id with
        | none => (st, noEffects)
        | some transfer =>
          match b64decode (kvGetD kv "DATA" "") with
          | none => (st, noEffects)
          | some chunk_data =>
            let transfer2 := (transfer.add_chunk chunk_index chunk_data).1
            let at2 := assocUpd st.active_transfers file_id transfer2
            let st2 := { st with active_transfers := at2 }
            if transfer2.completed then complete_file_transfer now st2 transfer2
            else (st2, noEffects))
      | _, _, _ => (st, noEffects)

/-- FILE_RECEIVED branch (dispatch lines 354-359 and
`_handle_file_received`, lines 729-734): log only. -/
def handleFileReceived (st : LSNPController) (kv : List (String × String))
    (addr : String × Nat) : LSNPController × Effects :=
  let from_id := kvGetD kv "FROM" ""
  if failedSecurityCheck from_id addr.1 then (st, noEffects)
  else (st, noEffects)

/-- ACK branch (lines 361-368): sets the waiter event when registered. -/
def handleAck (st : LSNPController) (kv : List (String × String)) :
    LSNPController × Effects :=
  let message_id := kvGetD kv "MESSAGE_ID" ""
  if (st.ack_events.lookup message_id).isSome then
    ({ st with ack_events := assocUpd st.ack_events message_id true }, noEffects)
  else (st, noEffects)

/-- FILE_ACCEPT branch (lines 377-401). -/
def handleFileAccept (now : Nat) (blacklist : List String) (st : LSNPController)
    (kv : List (String × String)) (addr : String × Nat) : LSNPController × Effects :=
  let from_id := kvGetD kv "FROM" ""
  if failedSecurityCheck from_id addr.1 then (st, noEffects)
  else
    let to_id := kvGetD kv "TO" ""
    let file_id := kvGetD kv "FILEID" ""
    let token := kvGetD kv "TOKEN" ""
    if to_id ≠ st.full_user_id then (st, noEffects)
    else if !validate_token blacklist now token "file" then
      ({ st with pending_offers := assocRemove st.pending_offers file_id }, noEffects)
    else if (st.file_response_events.lookup file_id).isSome then
      ({ st with
          file_responses := assocUpd st.file_responses file_id "ACCEPTED",
          file_response_events := assocUpd st.file_response_events file_id true }, noEffects)
    else (st, noEffects)

/-- FILE_REJECT branch (lines 403-428). -/
def handleFileReject (now : Nat) (blacklist : List String) (st : LSNPController)
    (kv : List (String × String)) (addr : String × Nat) : LSNPController × Effects :=
  let from_id := kvGetD kv "FROM" ""
  if failedSecurityCheck from_id addr.1 then (st, noEffects)
  else
    let to_id := kvGetD kv "TO" ""
    let file_id := kvGetD kv "FILEID" ""
    let token := kvGetD kv "TOKEN" ""
    if to_id ≠ st.full_user_id then (st, noEffects)
    else if !validate_token blacklist now token "file" then
      ({ st with pending_offers := assocRemove st.pending_offers file_id }, noEffects)
    else if (st.file_response_events.lookup file_id).isSome then
      ({ st with
          file_responses := assocUpd st.file_responses file_id "REJECTED",
          file_response_events := assocUpd st.file_response_events file_id true }, noEffects)
    else (st, noEffects)

/-- LIKE branch (lines 429-441): after the security check the body reads
the fields and does nothing. -/
def handleLike (st : LSNPController) (kv : List (String × String))
    (addr : String × Nat) : LSNPController × Effects :=
  let from_id := kvGetD kv "FROM" ""
  if failedSecurityCheck from_id addr.1 then (st, noEffects)
  else (st, noEffects)

/-- TICTACTOE_INVITE branch (lines 443-461). -/
def handleTTTInvite (st : LSNPController) (kv : List (String × String))
    (addr : String × Nat) : LSNPController × Effects :=
  let from_id := pyStr (kvGet kv "FROM")
  if failedSecurityCheck from_id addr.1 then (st, noEffects)
  else
    let gameid := pyStr (kvGet kv "GAMEID")
    let symbol := pyStr (kvGet kv "SYMBOL")
    let game : TTTGame :=
      ⟨List.replicate 9 (some " "), if symbol = "X" then "O" else "X", from_id, 0, true⟩
    ({ st with tictactoe_games := assocUpd st.tictactoe_games gameid game }, noEffects)

/-- TICTACTOE_MOVE branch (lines 463-479): the board cell is written
before `TURN` is parsed, so an unparsable `TURN` leaves a half-updated
game; a winning board triggers `send_tictactoe_result`. -/
def handleTTTMove (now : Nat) (fresh_id : String) (st : LSNPController)
    (kv : List (String × String)) (addr : String × Nat) : LSNPController × Effects :=
  let from_id := pyStr (kvGet kv "FROM")
  if failedSecurityCheck from_id addr.1 then (st, noEffects)
  else
    let gameid := pyStr (kvGet kv "GAMEID")
    match pyParseInt (pyStr (kvGet kv "POSITION")).data with
    | none => (st, noEffects)
    | some pos =>
      let sym := kvGet kv "SYMBOL"
      match st.tictactoe_games.lookup gameid with
      | none => (st, noEffects)
      | some game =>
        match pyListSet game.board pos sym with
        | none => (st, noEffects)
        | some board2 =>
          let games2 := assocUpd st.tictactoe_games gameid { game with board := board2 }
          let st2 := { st with tictactoe_games := games2 }
          match pyParseInt (pyStr (kvGet kv "TURN")).data with
          | none => (st2, noEffects)
          | some tn =>
            let games3 := assocUpd st2.tictactoe_games gameid
              { game with board := board2, turn := tn }
            let st3 := { st2 with tictactoe_games := games3 }
            let wl := checkTTTWinner board2
            if winnerTruthy wl.1 then
              let (st4, sent) := send_tictactoe_result now fresh_id st3 gameid wl.1 wl.2
              (st4, sendEffects sent)
            else (st3, noEffects)

/-- TICTACTOE_RESULT branch (lines 481-495): `KeyError` on an unknown
game id aborts before any mutation; otherwise the game is deleted. -/
def handleTTTResult (st : LSNPController) (kv : List (String × String))
    (addr : String × Nat) : LSNPController × Effects :=
  let from_id := pyStr (kvGet kv "FROM")
  if failedSecurityCheck from_id addr.1 then (st, noEffects)
  else
    match kvGet kv "GAMEID" with
    | none => (st, noEffects)
    | some gameid =>
      if (st.tictactoe_games.lookup gameid).isSome then
        ({ st with tictactoe_games := assocRemove st.tictactoe_games gameid }, noEffects)
      else (st, noEffects)

/-- GROUP_CREATE branch (lines 497-526). -/
def handleGroupCreate (now : Nat) (blacklist : List String) (st : LSNPController)
    (kv : List (String × String)) (addr : String × Nat) : LSNPController × Effects :=
  let from_id := pyStr (kvGet kv "FROM")
  if failedSecurityCheck from_id addr.1 then (st, noEffects)
  else
    let group_id := kvGetD kv "GROUP_ID" ""
    let group_name := kvGetD kv "GROUP_NAME" ""
    let members := kvGetD kv "MEMBERS" ""
    let token := kvGetD kv "TOKEN" ""
    let parts := pySplitStr ',' members
    if st.full_user_id ∉ parts then (st, noEffects)
    else if !validate_token blacklist now token "group" then (st, noEffects)
    else
      ({ st with groups := st.groups ++ [⟨group_id, group_name, from_id, parts, now⟩] },
        noEffects)

/-- GROUP_ADD branch (lines 528-565): no owner check; when the local user
is among the added members a fresh group record is appended, otherwise
the record found by group id (index `-1`, i.e. the **last** group, when
the id is unknown — Python negative indexing) gets the transmitted member
list. -/
def handleGroupAdd (now : Nat) (blacklist : List String) (st : LSNPController)
    (kv : List (String × String)) (addr : String × Nat) : LSNPController × Effects :=
  let from_id := pyStr (kvGet kv "FROM")
  if failedSecurityCheck from_id addr.1 then (st, noEffects)
  else
    let group_id := kvGetD kv "GROUP_ID" ""
    let group_name := kvGetD kv "GROUP_NAME" ""
    let add := kvGetD kv "ADD" ""
    let members := kvGetD kv "MEMBERS" ""
    let token := kvGetD kv "TOKEN" ""
    let add_parts := pySplitStr ',' add
    let member_parts := pySplitStr ',' members
    if st.full_user_id ∉ member_parts then (st, noEffects)
    else if !validate_token blacklist now token "group" then (st, noEffects)
    else if st.full_user_id ∈ add_parts then
      ({ st with groups := st.groups ++ [⟨group_id, group_name, from_id, member_parts, now⟩] },
        noEffects)
    else
      let gi : Int :=
        match st.groups.findIdx? (fun g => g.group_id == group_id) with
        | some i => (i : Int)
        | none => -1
      match pyListGet st.groups gi with
      | none => (st, noEffects)
      | some g =>
        match pyListSet st.groups gi { g with members := member_parts } with
        | none => (st, noEffects)
        | some gs => ({ st with groups := gs }, noEffects)

/-- GROUP_REMOVE branch (lines 567-611): no owner check; membership of
the local user and a valid token gate a pop (when the local user is
removed) or an in-place bulk `members.remove` (partial when a listed
member is absent). -/
def handleGroupRemove (now : Nat) (blacklist : List String) (st : LSNPController)
    (kv : List (String × String)) (addr : String × Nat) : LSNPController × Effects :=
  let from_id := pyStr (kvGet kv "FROM")
  if failedSecurityCheck from_id addr.1 then (st, noEffects)
  else
    let group_id := kvGetD kv "GROUP_ID" ""
    let remove := kvGetD kv "REMOVE" ""
    let token := kvGetD kv "TOKEN" ""
    let remove_parts := pySplitStr ',' remove
    match st.groups.findIdx? (fun g => g.group_id == group_id) with
    | none => (st, noEffects)
    | some gi =>
      match st.groups.get? gi with
      | none => (st, noEffects)
      | some g =>
        if st.full_user_id ∉ g.members then (st, noEffects)
        else if !validate_token blacklist now token "group" then (st, noEffects)
        else if st.full_user_id ∈ remove_parts then
          ({ st with groups := st.groups.eraseIdx gi }, noEffects)
        else
          let ms := (pyRemoveEach g.members remove_parts).1
          ({ st with groups := st.groups.set gi { g with members := ms } }, noEffects)

/-- GROUP_MESSAGE branch (lines 613-641). -/
def handleGroupMessage (now : Nat) (blacklist : List String) (st : LSNPController)
    (kv : List (String × String)) (addr : String × Nat) : LSNPController × Effects :=
  let from_id := pyStr (kvGet kv "FROM")
  if failedSecurityCheck from_id addr.1 then (st, noEffects)
  else
    let group_id := kvGetD kv "GROUP_ID" ""
    let message_id := kvGetD kv "MESSAGE_ID" ""
    let token := kvGetD kv "TOKEN" ""
    match st.groups.findIdx? (fun g => g.group_id == group_id) with
    | none => (st, noEffects)
    | some _ =>
      if !validate_token blacklist now token "group" then (st, noEffects)
      else (st, sendEffects [sendAck message_id addr])

/-- Embeds the dispatch chain of `_handle_kv_message` (lines 213-641).
`now` models `int(time.time())`, `blacklist` the token revocation set,
`fresh_id` the `uuid.uuid4()` value a branch may mint. -/
def handle_kv_message (now : Nat) (blacklist : List String) (fresh_id : String)
    (st : LSNPController) (kv : List (String × String)) (addr : String × Nat) :
    LSNPController × Effects :=
  let msg_type := kvGet kv "TYPE"
  if msg_type = some "PROFILE" then handleProfile st kv addr
  else if msg_type = some "DM" then handleDM now blacklist st kv addr
  else if msg_type = some "FOLLOW" then handleFollow st kv addr
  else if msg_type = some "UNFOLLOW" then handleUnfollow st kv addr
  else if msg_type = some "POST" then handlePost now blacklist st kv addr
  else if msg_type = some "FILE_OFFER" then handleFileOffer now blacklist st kv addr
  else if msg_type = some "FILE_CHUNK" then handleFileChunk now blacklist st kv addr
  else if msg_type = some "FILE_RECEIVED" then handleFileReceived st kv addr
  else if msg_type = some "ACK" then handleAck st kv
  else if msg_type = some "PING" then (st, noEffects)
  else if msg_type = some "FILE_ACCEPT" then handleFileAccept now blacklist st kv addr
  else if msg_type = some "FILE_REJECT" then handleFileReject now blacklist st kv addr
  else if msg_type = some "LIKE" then handleLike st kv addr
  else if msg_type = some "TICTACTOE_INVITE" then handleTTTInvite st kv addr
  else if msg_type = some "TICTACTOE_MOVE" then handleTTTMove now fresh_id st kv addr
  else if msg_type = some "TICTACTOE_RESULT" then handleTTTResult st kv addr
  else if msg_type = some "GROUP_CREATE" then handleGroupCreate now blacklist st kv addr
  else if msg_type = some "GROUP_ADD" then handleGroupAdd now blacklist st kv addr
  else if msg_type = some "GROUP_REMOVE" then handleGroupRemove now blacklist st kv addr
  else if msg_type = some "GROUP_MESSAGE" then handleGroupMessage now blacklist st kv addr
  else (st, noEffects)

/-- The key-value path of one `_listen` iteration (lines 176-199):
`log_connection_attempt` fires before parsing, then the frame dict is
handled; `log_message_flow` afterwards only logs. -/
def receiveKvDatagram (now : Nat) (blacklist : List String) (fresh_id : String)
    (st : LSNPController) (kv : List (String × String)) (addr : String × Nat) :
    LSNPController × Effects :=
  let st1 := { st with ip_tracker := st.ip_tracker.log_connection_attempt addr.1 }
  handle_kv_message now blacklist fresh_id st1 kv addr

end LSNP

/-! ## Outbound ACK-waiter lifecycle -/

namespace LSNP

/-- Outcome of one outbound operation restricted to its waiter-map
manipulation: the final map, how many `del self.ack_events[...]`
statements were *attempted*, and whether an exception escaped the
operation. -/
structure WaiterRun where
  ack_events : List (String × Bool)
  delAttempts : Nat
  raised : Bool
deriving DecidableEq, Repr

/-- The retry loop shared verbatim by `send_dm` (lines 1090-1104) and
`follow` (1444-1459): at each attempt `sendto` may raise (`sendFails`),
which escapes the operation without any `del`; a signalled wait performs
the `del` and returns; exhaustion falls through to the final `del`.
`attempt` counts from 0.  (`unfollow`'s loop differs on its ACK path and
is modelled separately below.) -/
def ackRetryLoop (events : List (String × Bool)) (mid : String)
    (sendFails ackAt : Nat → Bool) (attempt : Nat) : Nat → WaiterRun
  | 0 => ⟨assocRemove events mid, 1, false⟩
  | fuel + 1 =>
    if sendFails attempt then ⟨events, 0, true⟩
    else if ackAt attempt then ⟨assocRemove events mid, 1, false⟩
    else ackRetryLoop events mid sendFails ackAt (attempt + 1) fuel

/-- Waiter lifecycle of `send_dm` (lines 1087-1104): install, then the
retry loop. -/
def send_dm_waiter (events0 : List (String × Bool)) (mid : String)
    (sendFails ackAt : Nat → Bool) : WaiterRun :=
  ackRetryLoop (assocUpd events0 mid false) mid sendFails ackAt 0 RETRY_COUNT

/-- Waiter lifecycle of `follow` (lines 1441-1459); identical loop, the
`following` inserts do not touch the waiter map. -/
def follow_waiter (events0 : List (String × Bool)) (mid : String)
    (sendFails ackAt : Nat → Bool) : WaiterRun :=
  ackRetryLoop (assocUpd events0 mid false) mid sendFails ackAt 0 RETRY_COUNT

/-- Outcome of `unfollow`, which also mutates the `following` set. -/
structure UnfollowRun where
  ack_events : List (String × Bool)
  following : List String
  delAttempts : Nat
  raised : Bool
deriving DecidableEq, Repr

/-- Retry loop of `unfollow` (lines 1500-1516): like `send_dm`'s, except
that the ACK branch runs a second `self.following.remove(user_id)` (line
1509) *after* its `del` (line 1508).  `following` is a `Set[str]`, so
when `user_id` is absent that `remove` raises `KeyError` and the ACK path
exits by exception with the waiter already deleted. -/
def unfollowRetryLoop (events : List (String × Bool)) (following : List String)
    (user_id mid : String) (sendFails ackAt : Nat → Bool) (attempt : Nat) :
    Nat → UnfollowRun
  | 0 => ⟨assocRemove events mid, following, 1, false⟩
  | fuel + 1 =>
    if sendFails attempt then ⟨events, following, 0, true⟩
    else if ackAt attempt then
      if following.contains user_id then
        ⟨assocRemove events mid, following.erase user_id, 1, false⟩
      else ⟨assocRemove events mid, following, 1, true⟩
    else unfollowRetryLoop events following user_id mid sendFails ackAt (attempt + 1) fuel

/-- Waiter-and-following lifecycle of `unfollow` (lines 1461-1516),
starting after the peer-resolution guards (which touch no tracked state):
`user_id not in self.following` returns before any registration (line
1479); otherwise `user_id` is removed from `following` (line 1484)
*before* the loop, the waiter is installed (line 1499) and the retry loop
runs — so on every ACK-signalled run the loop's second `remove` finds
`user_id` already gone. -/
def unfollow_waiter (events0 : List (String × Bool)) (following0 : List String)
    (user_id mid : String) (sendFails ackAt : Nat → Bool) : UnfollowRun :=
  if following0.contains user_id then
    unfollowRetryLoop (assocUpd events0 mid false) (following0.erase user_id)
      user_id mid sendFails ackAt 0 RETRY_COUNT
  else ⟨events0, following0, 0, false⟩

/-- Outcome of `toggle_like`, which also mutates the like set. -/
structure ToggleLikeRun where
  ack_events : List (String × Bool)
  post_likes : List String
  delAttempts : Nat
  raised : Bool
deriving DecidableEq, Repr

/-- Retry loop of `toggle_like` (lines 1688-1707): on a signalled wait,
`ACTION = LIKE` adds the post id to the set and `UNLIKE` removes it
(`set.remove` raises `KeyError` when absent, skipping the `del`); the
waiter key is the `timestamp` string, not the message id. -/
def toggleLikeLoop (events : List (String × Bool)) (likes : List String)
    (post_id action tsKey : String) (sendFails ackAt : Nat → Bool) (attempt : Nat) :
    Nat → ToggleLikeRun
  | 0 => ⟨assocRemove events tsKey, likes, 1, false⟩
  | fuel + 1 =>
    if sendFails attempt then ⟨events, likes, 0, true⟩
    else if ackAt attempt then
      if action = "LIKE" then
        ⟨assocRemove events tsKey,
          if likes.contains post_id then likes else likes ++ [post_id], 1, false⟩
      else
        if likes.contains post_id then
          ⟨assocRemove events tsKey, likes.erase post_id, 1, false⟩
        else ⟨events, likes, 0, true⟩
    else toggleLikeLoop events likes post_id action tsKey sendFails ackAt (attempt + 1) fuel

/-- Waiter-and-likes lifecycle of `toggle_like` (lines 1655-1707): the
action is chosen from the current like set, the waiter is installed under
the fresh timestamp string, then the retry loop runs. -/
def toggle_like_waiter (events0 : List (String × Bool)) (likes0 : List String)
    (post_id tsKey : String) (sendFails ackAt : Nat → Bool) : ToggleLikeRun :=
  let action := if likes0.contains post_id then "UNLIKE" else "LIKE"
  toggleLikeLoop (assocUpd events0 tsKey false) likes0 post_id action tsKey sendFails ackAt 0
    RETRY_COUNT

/-- Member loop of `group_message` (lines 1339-1355): a send failure is
caught and answered with `del self.ack_events[message_id]`; if the key is
already gone that `del` raises `KeyError` inside the handler and escapes
the operation.  Waits and breaks do not touch the map. -/
def groupMsgMembers (events : List (String × Bool)) (mid : String) (dels : Nat) :
    List Bool → List (String × Bool) × Nat × Bool
  | [] => (events, dels, false)
  | fail :: rest =>
    if fail then
      if (events.lookup mid).isSome then
        groupMsgMembers (assocRemove events mid) mid (dels + 1) rest
      else (events, dels + 1, true)
    else groupMsgMembers events mid dels rest

/-- Waiter lifecycle of `group_message` (lines 1315-1374): install, the
per-member loops (`memberFails` says which member's sends raise), the
owner loop (`ownerFails`), then the unconditional final
`del self.ack_events[message_id]` of line 1374. -/
def group_message_waiter (events0 : List (String × Bool)) (mid : String)
    (memberFails : List Bool) (ownerFails : Bool) : WaiterRun :=
  let events1 := assocUpd events0 mid false
  match groupMsgMembers events1 mid 0 memberFails with
  | (ev, dels, true) => ⟨ev, dels, true⟩
  | (ev, dels, false) =>
    let step :=
      if ownerFails then
        if (ev.lookup mid).isSome then (assocRemove ev mid, dels + 1, false)
        else (ev, dels + 1, true)
      else (ev, dels, false)
    match step with
    | (ev2, dels2, true) => ⟨ev2, dels2, true⟩
    | (ev2, dels2, false) =>
      if (ev2.lookup mid).isSome then ⟨assocRemove ev2 mid, dels2 + 1, false⟩
      else ⟨ev2, dels2 + 1, true⟩

/-- Registration phase of `send_post` (lines 1596-1599): one fresh
message id per eligible follower. -/
def sendPostRegister (events : List (String × Bool)) : List String → List (String × Bool)
  | [] => events
  | mid :: rest => sendPostRegister (assocUpd events mid false) rest

/-- Cleanup phase of `send_post` (lines 1651-1653): a *guarded* `del` per
registered id, so it never raises. -/
def sendPostCleanup (events : List (String × Bool)) (dels : Nat) :
    List String → List (String × Bool) × Nat
  | [] => (events, dels)
  | mid :: rest =>
    if (events.lookup mid).isSome then
      sendPostCleanup (assocRemove events mid) (dels + 1) rest
    else sendPostCleanup events dels rest

/-- Waiter lifecycle of `send_post` (lines 1556-1653): `mids` are the
fresh ids minted for the eligible followers; the send and batched retry
phases wrap every `sendto` in `try/except` and never touch the map, so
the lifecycle is registration followed by guarded cleanup. -/
def send_post_waiters (events0 : List (String × Bool)) (mids : List String) :
    List (String × Bool) × Nat :=
  sendPostCleanup (sendPostRegister events0 mids) 0 mids

end LSNP

/-! ## Concrete fixtures for counterexamples and witnesses -/

namespace LSNP

/-- Empty IP tracker. -/
def exTracker : IPAddressTracker := ⟨[], [], [], []⟩

/-- A discovered peer. -/
def exAlice : Peer := ⟨"alice@10.0.0.2", "Alice", "10.0.0.2", 50999, none, none⟩

/-- A freshly initialized controller for `bob@10.0.0.3` that knows
`alice@10.0.0.2`. -/
def exState : LSNPController :=
  ⟨"bob@10.0.0.3", "Bob", [("alice@10.0.0.2", exAlice)], [], [], [], [], [], [], [],
    [], [], [], [], exTracker⟩

/-- An inbound FOLLOW frame from alice. -/
def exFollowKv : List (String × String) :=
  [("TYPE", "FOLLOW"), ("FROM", "alice@10.0.0.2"), ("TO", "bob@10.0.0.3"),
   ("MESSAGE_ID", "m1"), ("TIMESTAMP", "5"), ("TOKEN", "t")]

/-- The matching datagram source address. -/
def exAddr : String × Nat := ("10.0.0.2", 50999)

/-- An accepted two-chunk incoming transfer. -/
def exTransfer : FileTransfer :=
  ⟨"f1", "a.txt", 2000, "text/plain", 2, "alice@10.0.0.2", "", [], 0, true, false, 0⟩

/-- A group owned by `owner@1.1.1.1` that bob belongs to. -/
def exGroup : Group := ⟨"g1", "team", "owner@1.1.1.1", ["bob@10.0.0.3", "owner@1.1.1.1"], 0⟩

/-- `exState` with that one group. -/
def exGroupState : LSNPController := { exState with groups := [exGroup] }

/-- A GROUP_ADD frame issued by `mallory@2.2.2.2`, who is not the owner,
with a valid `group`-scoped token. -/
def exGroupAddKv : List (String × String) :=
  [("TYPE", "GROUP_ADD"), ("FROM", "mallory@2.2.2.2"), ("GROUP_ID", "g1"),
   ("GROUP_NAME", "team"), ("ADD", "dave@4.4.4.4"),
   ("MEMBERS", "bob@10.0.0.3,owner@1.1.1.1,dave@4.4.4.4"),
   ("TIMESTAMP", "0"), ("TOKEN", "mallory@2.2.2.2|0|group")]

/-- Mallory's datagram source address (matching her FROM suffix). -/
def exMalloryAddr : String × Nat := ("2.2.2.2", 50999)

end LSNP

/-! ## Theorems -/

theorem natDigitsF_append (fuel : Nat) :
    ∀ n acc, n < fuel → natDigitsF fuel n acc = natDigitsF fuel n [] ++ acc := by
  induction fuel with
  | zero => intro n acc h; omega
  | succ fuel ih =>
    intro n acc _
    by_cases h10 : n < 10
    · simp [natDigitsF, h10]
    · have hdiv : n / 10 < fuel := by
        have h1 : n / 10 < n := Nat.div_lt_self (by omega) (by omega)
        omega
      simp only [natDigitsF, h10, if_false]
      rw [ih (n / 10) (decChar (n % 10) :: acc) hdiv, ih (n / 10) [decChar (n % 10)] hdiv]
      simp

theorem natDigitsF_fuel (fuel₁ : Nat) :
    ∀ fuel₂ n, n < fuel₁ → n < fuel₂ →
      natDigitsF fuel₁ n [] = natDigitsF fuel₂ n [] := by
  induction fuel₁ with
  | zero => intro fuel₂ n h; omega
  | succ fuel₁ ih =>
    intro fuel₂ n h1 h2
    cases fuel₂ with
    | zero => omega
    | succ fuel₂ =>
      by_cases h10 : n < 10
      · simp [natDigitsF, h10]
      · have hd1 : n / 10 < fuel₁ := by
          have := Nat.div_lt_self (show 0 < n by omega) (show 1 < 10 by omega)
          omega
        have hd2 : n / 10 < fuel₂ := by
          have := Nat.div_lt_self (show 0 < n by omega) (show 1 < 10 by omega)
          omega
        simp only [natDigitsF, h10, if_false]
        rw [natDigitsF_append fuel₁ _ _ hd1, natDigitsF_append fuel₂ _ _ hd2,
          ih fuel₂ (n / 10) hd1 hd2]

/-- Unfolding equation for `natDigits`. -/
theorem natDigits_eq (n : Nat) :
    natDigits n =
      if n < 10 then [decChar n]
      else natDigits (n / 10) ++ [decChar (n % 10)] := by
  by_cases h10 : n < 10
  · simp [natDigits, natDigitsF, h10, Nat.mod_eq_of_lt h10]
  · have hd : n / 10 < n := Nat.div_lt_self (by omega) (by omega)
    rw [if_neg h10]
    rw [show natDigits n = natDigitsF n (n / 10) [decChar (n % 10)] by
      simp [natDigits, natDigitsF, h10]]
    rw [natDigitsF_append n _ _ (by omega), natDigitsF_fuel n (n / 10 + 1) _ (by omega) (by omega)]
    rfl

theorem decChar_isDigit {d : Nat} (h : d < 10) : (decChar d).isDigit = true := by
  interval_cases d <;> decide

theorem natDigits_all_digit (n : Nat) : ∀ c ∈ natDigits n, c.isDigit = true := by
  induction n using Nat.strong_induction_on with
  | _ n ih =>
    rw [natDigits_eq]
    by_cases h10 : n < 10
    · simp only [h10, if_true, List.mem_singleton]
      rintro c rfl; exact decChar_isDigit h10
    · have hd : n / 10 < n := Nat.div_lt_self (by omega) (by omega)
      simp only [h10, if_false, List.mem_append, List.mem_singleton]
      rintro c (hc | rfl)
      · exact ih _ hd c hc
      · exact decChar_isDigit (Nat.mod_lt _ (by omega))

theorem natDigits_ne_nil (n : Nat) : natDigits n ≠ [] := by
  rw [natDigits_eq]
  by_cases h10 : n < 10 <;> simp [h10]

theorem valDigits_append_singleton (l : List Char) (c : Char) :
    valDigits (l ++ [c]) = valDigits l * 10 + (c.toNat - 48) := by
  simp [valDigits, List.foldl_append]

theorem decChar_toNat {d : Nat} (h : d < 10) : (decChar d).toNat - 48 = d := by
  interval_cases d <;> decide

theorem valDigits_natDigits (n : Nat) : valDigits (natDigits n) = n := by
  induction n using Nat.strong_induction_on with
  | _ n ih =>
    rw [natDigits_eq]
    by_cases h10 : n < 10
    · simp only [h10, if_true]
      have : valDigits [decChar n] = (decChar n).toNat - 48 := by
        simp [valDigits]
      rw [this, decChar_toNat h10]
    · have hd : n / 10 < n := Nat.div_lt_self (by omega) (by omega)
      simp only [h10, if_false]
      rw [valDigits_append_singleton, ih _ hd, decChar_toNat (Nat.mod_lt _ (by omega))]
      omega

theorem dropWhile_eq_self_of_forall {p : Char → Bool} {l : List Char}
    (h : ∀ c ∈ l, p c = false) : l.dropWhile p = l := by
  cases l with
  | nil => rfl
  | cons a l => simp [List.dropWhile_cons, h a (List.mem_cons_self a l)]

theorem digit_ne_beq {c d : Char} (h : c.isDigit = true) (hd : d.isDigit = false) :
    (c == d) = false := by
  rcases Bool.eq_false_or_eq_true (c == d) with ht | hf
  · rw [beq_iff_eq] at ht; subst ht; rw [h] at hd; exact absurd hd (by simp)
  · exact hf

theorem digit_not_space {c : Char} (h : c.isDigit = true) : isPySpace c = false := by
  unfold isPySpace
  rw [digit_ne_beq h (by decide), digit_ne_beq h (by decide), digit_ne_beq h (by decide),
    digit_ne_beq h (by decide), digit_ne_beq h (by decide), digit_ne_beq h (by decide)]
  rfl

theorem pyStrip_eq_self_of_digits {l : List Char}
    (h : ∀ c ∈ l, c.isDigit = true) : pyStrip l = l := by
  have hns : ∀ c ∈ l, isPySpace c = false := fun c hc => digit_not_space (h c hc)
  unfold pyStrip
  rw [dropWhile_eq_self_of_forall hns,
    dropWhile_eq_self_of_forall (fun c hc => hns c (List.mem_reverse.mp hc)),
    List.reverse_reverse]

theorem pyParseInt_natDigits (n : Nat) : pyParseInt (natDigits n) = some (n : Int) := by
  have hall := natDigits_all_digit n
  unfold pyParseInt
  rw [pyStrip_eq_self_of_digits hall]
  rcases hnd : natDigits n with _ | ⟨c, rest⟩
  · exact absurd hnd (natDigits_ne_nil n)
  · have hc : c.isDigit = true := by
      apply hall; rw [hnd]; exact List.mem_cons_self c rest
    have hcp : c ≠ '+' := by rintro rfl; simp [Char.isDigit] at hc
    have hcm : c ≠ '-' := by rintro rfl; simp [Char.isDigit] at hc
    simp only [hcp, hcm, if_false]
    have : parseDigitsPos (c :: rest) = some (valDigits (c :: rest) : Int) := by
      unfold parseDigitsPos
      have : (c :: rest).all Char.isDigit = true := by
        rw [List.all_eq_true]; intro x hx; apply hall; rw [hnd]; exact hx
      simp [this]
    rw [this, ← hnd, valDigits_natDigits]

theorem natDigits_no_bar (n : Nat) : ∀ c ∈ natDigits n, c ≠ '|' := by
  intro c hc
  have := natDigits_all_digit n c hc
  rintro rfl
  simp [Char.isDigit] at this

theorem splitChar_append_sep {sep : Char} :
    ∀ (a rest : List Char), (∀ c ∈ a, c ≠ sep) →
      splitChar sep (a ++ sep :: rest) = a :: splitChar sep rest := by
  intro a
  induction a with
  | nil => intro rest _; simp [splitChar]
  | cons c a ih =>
    intro rest h
    have hc : c ≠ sep := h c (List.mem_cons_self c a)
    have hrec := ih rest (fun x hx => h x (List.mem_cons_of_mem c hx))
    simp only [List.cons_append, splitChar, hc, if_false, List.append_eq, hrec]

theorem splitChar_no_sep {sep : Char} :
    ∀ (a : List Char), (∀ c ∈ a, c ≠ sep) → splitChar sep a = [a] := by
  intro a
  induction a with
  | nil => intro _; rfl
  | cons c a ih =>
    intro h
    have hc : c ≠ sep := h c (List.mem_cons_self c a)
    simp only [splitChar, hc, if_false]
    rw [ih (fun x hx => h x (List.mem_cons_of_mem c hx))]

theorem string_data_append (s t : String) : (s ++ t).data = s.data ++ t.data := rfl

/-- Claim C1, counterexample: `generate_token` embeds the *issuing* time,
not `issuing time + ttl`.  Issued at time 1000 with `ttl = 600`, the token
reads `…|1000|…`, not `…|1600|…`. -/
theorem c1_token_embeds_issue_time :
    generate_token 1000 "alice@192.168.1.7" "chat" 600 = "alice@192.168.1.7|1000|chat" ∧
    generate_token 1000 "alice@192.168.1.7" "chat" 600 ≠ "alice@192.168.1.7|1600|chat" := by
  constructor
  · rfl
  · decide

/-- Claim C1, amended: `issue(user_id, scope, ttl)` returns
`user_id|t|scope` where `t` is the issuing time (the `ttl` argument is
ignored), and `validate` accepts exactly the unrevoked tokens with
`now - t ≤ TOKEN_TTL = 600` and matching scope (for `user_id` and `scope`
free of the separator `|`). -/
theorem c1_issue_validate (u s r : String) (t now : Nat) (ttl : Int) (bl : List String)
    (hu : ∀ c ∈ u.data, c ≠ '|') (hs : ∀ c ∈ s.data, c ≠ '|') :
    generate_token t u s ttl = u ++ "|" ++ String.mk (natDigits t) ++ "|" ++ s ∧
    validate_token bl now (generate_token t u s ttl) r =
      (!bl.contains (generate_token t u s ttl) &&
        decide ((now : Int) - t ≤ TOKEN_TTL) && (s == r)) := by
  refine ⟨rfl, ?_⟩
  unfold validate_token
  have hdata : (generate_token t u s ttl).data =
      u.data ++ '|' :: (natDigits t ++ '|' :: s.data) := by
    unfold generate_token
    rw [string_data_append, string_data_append, string_data_append]
    simp
  rw [hdata, splitChar_append_sep u.data _ hu,
    splitChar_append_sep (natDigits t) _ (natDigits_no_bar t),
    splitChar_no_sep s.data hs]
  simp only [pyParseInt_natDigits]
  by_cases hb : bl.contains (generate_token t u s ttl)
  · rw [if_pos hb, hb]
    simp
  · have hb0 : bl.contains (generate_token t u s ttl) = false := by
      cases hx : bl.contains (generate_token t u s ttl)
      · rfl
      · exact absurd hx hb
    rw [if_neg hb, hb0]
    by_cases hexp : (now : Int) - t > TOKEN_TTL
    · have hdec : decide ((now : Int) - t ≤ TOKEN_TTL) = false := by
        simp only [decide_eq_false_iff_not, not_le]; exact hexp
      rw [if_pos hexp, hdec]
      simp
    · have hdec : decide ((now : Int) - t ≤ TOKEN_TTL) = true := by
        simp only [decide_eq_true_eq]; omega
      rw [if_neg hexp, hdec]
      cases s
      simp

/-- Witness for `c1_issue_validate` at a concrete input: a token issued at
time 5 for scope `chat` validates for `chat` at time 100. -/
theorem c1_issue_validate_witness :
    validate_token [] 100 (generate_token 5 "alice@10.0.0.2" "chat" 600) "chat" = true := by
  have h := c1_issue_validate "alice@10.0.0.2" "chat" "chat" 5 100 600 []
    (by decide) (by decide)
  rw [h.2]
  decide

theorem pySplitlinesAux_line (line : List Char)
    (h : ∀ c ∈ line, isLineBreakChar c = false) :
    ∀ cur rest, pySplitlinesAux cur false (line ++ '\n' :: rest) =
      (cur.reverse ++ line) :: pySplitlinesAux [] false rest := by
  induction line with
  | nil =>
    intro cur rest
    simp [pySplitlinesAux, isLineBreakChar]
  | cons c line2 ih =>
    intro cur rest
    have hc : isLineBreakChar c = false := h c (List.mem_cons_self c line2)
    have hrec := ih (fun x hx => h x (List.mem_cons_of_mem c hx)) (c :: cur) rest
    simp only [List.cons_append, pySplitlinesAux, Bool.false_and, Bool.false_eq_true,
      if_false, hc, List.append_eq]
    rw [hrec]
    simp

theorem pySplitlinesAux_last (line : List Char)
    (h : ∀ c ∈ line, isLineBreakChar c = false) :
    ∀ cur, pySplitlinesAux cur false line =
      if cur = [] ∧ line = [] then [] else [cur.reverse ++ line] := by
  induction line with
  | nil =>
    intro cur
    by_cases hcur : cur = [] <;> simp [pySplitlinesAux, hcur]
  | cons c line2 ih =>
    intro cur
    have hc : isLineBreakChar c = false := h c (List.mem_cons_self c line2)
    have hrec := ih (fun x hx => h x (List.mem_cons_of_mem c hx)) (c :: cur)
    simp only [pySplitlinesAux, Bool.false_and, Bool.false_eq_true, if_false, hc, List.append_eq]
    rw [hrec]
    simp

theorem pySplitlines_joinNL :
    ∀ lines : List (List Char), lines ≠ [] →
      (∀ l ∈ lines, ∀ c ∈ l, isLineBreakChar c = false) →
      (∀ l ∈ lines, l ≠ []) →
      pySplitlines (joinNL lines) = lines := by
  intro lines
  induction lines with
  | nil => intro h; exact absurd rfl h
  | cons l ls ih =>
    intro _ hfree hne
    cases ls with
    | nil =>
      have hl : l ≠ [] := hne l (List.mem_cons_self l [])
      unfold pySplitlines
      rw [show joinNL [l] = l from rfl,
        pySplitlinesAux_last l (hfree l (List.mem_cons_self l [])) []]
      simp [hl]
    | cons l2 ls2 =>
      unfold pySplitlines
      rw [show joinNL (l :: l2 :: ls2) = l ++ '\n' :: joinNL (l2 :: ls2) from rfl,
        pySplitlinesAux_line l (hfree l (List.mem_cons_self l _)) [] _]
      have hih := ih (by simp)
        (fun x hx => hfree x (List.mem_cons_of_mem _ hx))
        (fun x hx => hne x (List.mem_cons_of_mem _ hx))
      unfold pySplitlines at hih
      rw [hih]
      simp

theorem pyStrip_body (joined : List Char)
    (hne : joined ≠ [])
    (hhead : ∀ c, joined.head? = some c → isPySpace c = false)
    (hlast : ∀ c, joined.getLast? = some c → isPySpace c = false) :
    pyStrip (joined ++ ['\n', '\n']) = joined := by
  unfold pyStrip
  obtain ⟨a, as, rfl⟩ := List.exists_cons_of_ne_nil hne
  have h1 : ((a :: as) ++ ['\n', '\n']).dropWhile isPySpace = (a :: as) ++ ['\n', '\n'] := by
    rw [List.cons_append, List.dropWhile_cons]
    have ha := hhead a rfl
    simp [ha]
  rw [h1, show ((a :: as) ++ ['\n', '\n']).reverse = '\n' :: '\n' :: (a :: as).reverse by simp,
    List.dropWhile_cons, List.dropWhile_cons]
  simp only [show isPySpace '\n' = true from rfl, if_true]
  have h2 : ((a :: as).reverse).dropWhile isPySpace = (a :: as).reverse := by
    obtain ⟨b, bs, hb⟩ := List.exists_cons_of_ne_nil (l := (a :: as).reverse) (by simp)
    rw [hb, List.dropWhile_cons]
    have hbl : (a :: as).getLast? = some b := by
      rw [← List.head?_reverse, hb]; rfl
    have hbns := hlast b hbl
    simp [hbns]
  rw [h2, List.reverse_reverse]

theorem splitOnce_key : ∀ (k v : List Char), hasColonSpace k = false →
    pySplitOnceColonSpace (k ++ ':' :: ' ' :: v) = some (k, v) := by
  intro k
  induction k with
  | nil =>
    intro v _
    simp [pySplitOnceColonSpace]
  | cons c k2 ih =>
    intro v h
    cases k2 with
    | nil =>
      have hmid : pySplitOnceColonSpace (':' :: ' ' :: v) = some ([], v) := by
        simp [pySplitOnceColonSpace]
      simp only [List.nil_append, List.cons_append, pySplitOnceColonSpace, List.append_eq]
      rw [if_neg (by rintro ⟨h1, h2⟩; exact absurd h2 (by decide))]
      simp
    | cons c2 k3 =>
      have hsplit : (c == ':' && c2 == ' ') = false ∧ hasColonSpace (c2 :: k3) = false := by
        have := h
        unfold hasColonSpace at this
        exact Bool.or_eq_false_iff.mp this
      have hcond : ¬(c = ':' ∧ c2 = ' ') := by
        rintro ⟨rfl, rfl⟩
        simp at hsplit
      have hrec := ih v hsplit.2
      simp only [List.cons_append, pySplitOnceColonSpace, List.append_eq]
      rw [if_neg hcond]
      rw [show (c2 :: k3) ++ ':' :: ' ' :: v = c2 :: (k3 ++ ':' :: ' ' :: v) from rfl] at hrec
      rw [hrec]

theorem filterMap_congr_some {α β : Type} (f : α → Option β) (g : α → β) :
    ∀ l : List α, (∀ x ∈ l, f x = some (g x)) → l.filterMap f = l.map g := by
  intro l
  induction l with
  | nil => intro _; rfl
  | cons a l ih =>
    intro h
    rw [List.filterMap_cons, h a (List.mem_cons_self a l), List.map_cons,
      ih (fun x hx => h x (List.mem_cons_of_mem a hx))]

theorem pyDictInsert_notmem (k v : List Char) :
    ∀ d, (∀ p ∈ d, p.1 ≠ k) → pyDictInsert d k v = d ++ [(k, v)] := by
  intro d
  induction d with
  | nil => intro _; rfl
  | cons p rest ih =>
    intro h
    obtain ⟨k0, v0⟩ := p
    have hk0 : k0 ≠ k := h (k0, v0) (List.mem_cons_self _ _)
    simp only [pyDictInsert, hk0, if_false, List.cons_append]
    rw [ih (fun q hq => h q (List.mem_cons_of_mem _ hq))]

theorem pyDictOfPairs_acc :
    ∀ (ps acc : List (List Char × List Char)), ((acc ++ ps).map Prod.fst).Nodup →
      ps.foldl (fun d kv => pyDictInsert d kv.1 kv.2) acc = acc ++ ps := by
  intro ps
  induction ps with
  | nil => intro acc _; simp
  | cons p ps ih =>
    intro acc hnd
    have hmem : ∀ q ∈ acc, q.1 ≠ p.1 := by
      intro q hq heq
      rw [List.map_append] at hnd
      have hdisj := (List.nodup_append.mp hnd).2.2
      exact hdisj (List.mem_map_of_mem Prod.fst hq)
        (by rw [heq]; exact List.mem_map_of_mem Prod.fst (List.mem_cons_self p ps))
    rw [List.foldl_cons, pyDictInsert_notmem p.1 p.2 acc hmem]
    have hnd2 : (((acc ++ [p]) ++ ps).map Prod.fst).Nodup := by
      rw [List.append_assoc]
      simpa using hnd
    rw [ih (acc ++ [p]) hnd2]
    simp

theorem pyDictOfPairs_nodup (ps : List (List Char × List Char))
    (h : (ps.map Prod.fst).Nodup) : pyDictOfPairs ps = ps := by
  have := pyDictOfPairs_acc ps [] (by simpa using h)
  simpa [pyDictOfPairs] using this

theorem joinNL_head_cons (l : List Char) (ls : List (List Char)) (hl : l ≠ []) :
    (joinNL (l :: ls)).head? = l.head? := by
  cases ls with
  | nil => rfl
  | cons l2 ls2 =>
    obtain ⟨a, as, rfl⟩ := List.exists_cons_of_ne_nil hl
    rfl

theorem joinNL_getLast :
    ∀ (lines : List (List Char)) (l : List Char),
      lines.getLast? = some l → l ≠ [] → (joinNL lines).getLast? = l.getLast? := by
  intro lines
  induction lines with
  | nil => intro l h; simp at h
  | cons l0 ls ih =>
    intro l hl hne
    cases ls with
    | nil =>
      have : l0 = l := by simpa using hl
      subst this
      rfl
    | cons l2 ls2 =>
      have hl2 : (l2 :: ls2).getLast? = some l := by
        rw [← List.getLast?_cons_cons (a := l0)]
        exact hl
      have hih := ih l hl2 hne
      rw [show joinNL (l0 :: l2 :: ls2) = l0 ++ '\n' :: joinNL (l2 :: ls2) from rfl,
        List.getLast?_append_cons]
      have hjne : joinNL (l2 :: ls2) ≠ [] := by
        intro hemp
        rw [hemp] at hih
        obtain ⟨c, cs, rfl⟩ := List.exists_cons_of_ne_nil hne
        have h2 : (c :: cs).getLast?.isSome := List.getLast?_isSome.mpr (by simp)
        rw [← hih] at h2
        simp at h2
      rw [show ('\n' :: joinNL (l2 :: ls2)) = ['\n'] ++ joinNL (l2 :: ls2) from rfl,
        List.getLast?_append_of_ne_nil ['\n'] hjne]
      exact hih

/-- Claim C9, counterexample: the round trip loses a trailing pair whose
value is empty, because `strip()` eats the `" "` of the final `": "`
separator.  With `m = {"TYPE": ""}`, `format` gives `"TYPE: \n\n"`,
`strip` gives `"TYPE:"`, which has no `": "` and decodes to `{}`. -/
theorem c9_roundtrip_failure :
    parse_kv_message (format_kv_message [("TYPE".data, [])]) = [] ∧
    ([] : List (List Char × List Char)) ≠ [("TYPE".data, [])] := by
  constructor
  · decide
  · decide

/-- Claim C9, amended: `parse(format(m)) = m` for every insertion-ordered
mapping `m` whose keys are distinct, contain no whitespace, no line-break
character and no `": "` substring, whose values contain no line-break
character, and whose last value ends in a non-whitespace character (in
particular is non-empty). -/
theorem c9_roundtrip (m : List (List Char × List Char))
    (hne : m ≠ [])
    (hnodup : (m.map Prod.fst).Nodup)
    (hkeys : ∀ p ∈ m, (∀ c ∈ p.1, isPySpace c = false ∧ isLineBreakChar c = false) ∧
      hasColonSpace p.1 = false)
    (hvals : ∀ p ∈ m, ∀ c ∈ p.2, isLineBreakChar c = false)
    (hlastv : ∀ p, m.getLast? = some p → ∃ c, p.2.getLast? = some c ∧ isPySpace c = false) :
    parse_kv_message (format_kv_message m) = m := by
  obtain ⟨p0, m', rfl⟩ := List.exists_cons_of_ne_nil hne
  set f : (List Char × List Char) → List Char := fun kv => kv.1 ++ ':' :: ' ' :: kv.2 with hf
  have hfzero : ∀ p, f p = p.1 ++ ':' :: ' ' :: p.2 := fun p => rfl
  have hfne : ∀ p, f p ≠ [] := by
    intro p
    rw [hfzero]
    simp
  have hmapne : (p0 :: m').map f ≠ [] := by simp
  have hfree : ∀ l ∈ (p0 :: m').map f, ∀ c ∈ l, isLineBreakChar c = false := by
    intro l hl c hc
    obtain ⟨p, hp, rfl⟩ := List.mem_map.mp hl
    rw [hfzero] at hc
    rcases List.mem_append.mp hc with hck | hcr
    · exact ((hkeys p hp).1 c hck).2
    · simp only [List.mem_cons] at hcr
      rcases hcr with rfl | rfl | hcv
      · decide
      · decide
      · exact hvals p hp c hcv
  have hlnonempty : ∀ l ∈ (p0 :: m').map f, l ≠ [] := by
    intro l hl
    obtain ⟨p, hp, rfl⟩ := List.mem_map.mp hl
    exact hfne p
  have hjoinhead : (joinNL ((p0 :: m').map f)).head? = (f p0).head? := by
    rw [List.map_cons]
    exact joinNL_head_cons _ _ (hfne p0)
  have hjoinne : joinNL ((p0 :: m').map f) ≠ [] := by
    intro h
    rw [h] at hjoinhead
    cases hfp : f p0 with
    | nil => exact hfne p0 hfp
    | cons a l => rw [hfp] at hjoinhead; simp at hjoinhead
  have hheadns : ∀ c, (joinNL ((p0 :: m').map f)).head? = some c → isPySpace c = false := by
    intro c hc
    rw [hjoinhead, hfzero] at hc
    cases hk : p0.1 with
    | nil =>
      rw [hk] at hc
      simp only [List.nil_append, List.head?_cons, Option.some.injEq] at hc
      subst hc
      decide
    | cons a as =>
      rw [hk] at hc
      simp only [List.cons_append, List.head?_cons, Option.some.injEq] at hc
      subst hc
      exact ((hkeys p0 (List.mem_cons_self _ _)).1 _ (by rw [hk]; exact List.mem_cons_self _ _)).1
  have hlastns : ∀ c, (joinNL ((p0 :: m').map f)).getLast? = some c → isPySpace c = false := by
    intro c hc
    obtain ⟨q, hq⟩ : ∃ q, (p0 :: m').getLast? = some q := by
      cases hql : (p0 :: m').getLast? with
      | none =>
        have hsome : ((p0 :: m').getLast?).isSome := List.getLast?_isSome.mpr (by simp)
        rw [hql] at hsome
        simp at hsome
      | some q => exact ⟨q, rfl⟩
    obtain ⟨cv, hcv, hcvns⟩ := hlastv q hq
    have hqne : q.2 ≠ [] := by
      intro hq2
      rw [hq2] at hcv
      simp at hcv
    have hlineslast : ((p0 :: m').map f).getLast? = some (f q) := by
      rw [List.getLast?_map, hq]
      rfl
    have hflast : (f q).getLast? = q.2.getLast? := by
      rw [hfzero, List.getLast?_append_cons, List.getLast?_cons_cons,
        show (' ' :: q.2) = [' '] ++ q.2 from rfl, List.getLast?_append_of_ne_nil [' '] hqne]
    have hj := joinNL_getLast ((p0 :: m').map f) (f q) hlineslast (hfne q)
    rw [hj, hflast, hcv] at hc
    cases hc
    exact hcvns
  unfold parse_kv_message format_kv_message
  rw [← hf, pyStrip_body _ hjoinne hheadns hlastns,
    pySplitlines_joinNL _ hmapne hfree hlnonempty, List.filterMap_map]
  have hfm : ((p0 :: m').filterMap (pySplitOnceColonSpace ∘ f)) = p0 :: m' := by
    have hcall : ∀ p ∈ p0 :: m', (pySplitOnceColonSpace ∘ f) p = some (id p) := by
      intro p hp
      show pySplitOnceColonSpace (f p) = some (id p)
      rw [hfzero, splitOnce_key p.1 p.2 (hkeys p hp).2]
      rfl
    rw [filterMap_congr_some _ _ _ hcall, List.map_id]
  rw [hfm]
  exact pyDictOfPairs_nodup _ hnodup

/-- Witness for `c9_roundtrip` at a concrete mapping with a `TYPE` key. -/
theorem c9_roundtrip_witness :
    parse_kv_message (format_kv_message
        [("TYPE".data, "DM".data), ("FROM".data, "alice@10.0.0.2".data)]) =
      [("TYPE".data, "DM".data), ("FROM".data, "alice@10.0.0.2".data)] :=
  c9_roundtrip _ (by decide) (by decide) (by decide) (by decide)
    (fun p hp => ⟨'2', by cases hp; exact ⟨rfl, rfl⟩⟩)

theorem lookup_append_none {α β : Type} [DecidableEq α] [BEq α] [LawfulBEq α]
    {a : List (α × β)} {k : α} (h : a.lookup k = none) (b : List (α × β)) :
    (a ++ b).lookup k = b.lookup k := by
  induction a with
  | nil => rfl
  | cons p rest ih =>
    rw [List.cons_append, List.lookup_cons]
    rw [List.lookup_cons] at h
    by_cases hk : k == p.1
    · rw [hk] at h; simp at h
    · have hk0 : (k == p.1) = false := by
        cases hv : (k == p.1)
        · rfl
        · exact absurd hv hk
      rw [hk0] at h ⊢
      exact ih h

/-- Claim C3, counterexample: an accepted two-chunk transfer stores a
chunk at index 5, which is outside `[0, total_chunks)`. -/
theorem c3_out_of_range_chunk_stored :
    ((LSNP.exTransfer.add_chunk 5 [65]).1.chunks = [(5, [65])] ∧
      (LSNP.exTransfer.add_chunk 5 [65]).1.received_chunks = 1) ∧
    ¬(5 : Int) < LSNP.exTransfer.total_chunks := by
  refine ⟨⟨?_, ?_⟩, ?_⟩ <;> decide

/-- Claim C3, amended: `add_chunk` stores the bytes (and bumps the
received counter) exactly when the transfer is accepted and the index is
not yet present — the chunk index is never range-checked, so any integer
index, including those outside `[0, total_chunks)`, is accepted. -/
theorem c3_chunk_acceptance (t : LSNP.FileTransfer) (i : Int) (d : List Nat) :
    (t.add_chunk i d).1.chunks =
      (if t.accepted = true ∧ t.chunks.lookup i = none then t.chunks ++ [(i, d)]
        else t.chunks) ∧
    (t.add_chunk i d).1.received_chunks =
      (if t.accepted = true ∧ t.chunks.lookup i = none then t.received_chunks + 1
        else t.received_chunks) := by
  unfold LSNP.FileTransfer.add_chunk
  cases ha : t.accepted
  · simp [ha]
  · cases hl : t.chunks.lookup i
    · simp only [ha, hl, Bool.not_true, Bool.false_eq_true, if_false, Option.isNone_none,
        if_true, and_self]
      constructor <;> split <;> rfl
    · simp only [ha, hl, Bool.not_true, Bool.false_eq_true, if_false, Option.isNone_some,
        and_false]
      constructor <;> split <;> rfl

/-- Claim C4: adding an already-present chunk index again (with any
bytes) leaves the whole transfer state exactly as after the first add. -/
theorem c4_duplicate_chunk_idempotent (t : LSNP.FileTransfer) (i : Int)
    (d d2 : List Nat) (ha : t.accepted = true) :
    ((t.add_chunk i d).1.add_chunk i d2).1 = (t.add_chunk i d).1 := by
  unfold LSNP.FileTransfer.add_chunk
  cases hl : t.chunks.lookup i with
  | none =>
    have hl2 : (t.chunks ++ [(i, d)]).lookup i = some d := by
      rw [lookup_append_none hl]
      simp [List.lookup_cons]
    by_cases hc : (t.received_chunks : Int) + 1 = t.total_chunks
    · simp [ha, hl, hl2, hc]
    · simp [ha, hl, hl2, hc]
  | some d0 =>
    by_cases hc : (t.received_chunks : Int) = t.total_chunks
    · by_cases hcc : t.completed = true
      · simp [ha, hl, hc, hcc]
      · simp [ha, hl, hc, hcc]
    · simp [ha, hl, hc]

/-- Witness for `c4_duplicate_chunk_idempotent` on the concrete accepted
transfer. -/
theorem c4_duplicate_chunk_idempotent_witness :
    ((LSNP.exTransfer.add_chunk 0 [65]).1.add_chunk 0 [66]).1 =
      (LSNP.exTransfer.add_chunk 0 [65]).1 :=
  c4_duplicate_chunk_idempotent LSNP.exTransfer 0 [65] [66] (by decide)

/-- Claim C7, counterexample: `followers` is a list and the FOLLOW branch
appends unconditionally, so the same FOLLOW processed twice leaves alice
in the collection twice — not equal to processing it once. -/
theorem c7_follow_duplicates :
    (LSNP.handle_kv_message 0 [] "" LSNP.exState LSNP.exFollowKv LSNP.exAddr).1.followers =
      ["alice@10.0.0.2"] ∧
    (LSNP.handle_kv_message 0 [] ""
        (LSNP.handle_kv_message 0 [] "" LSNP.exState LSNP.exFollowKv LSNP.exAddr).1
        LSNP.exFollowKv LSNP.exAddr).1.followers =
      ["alice@10.0.0.2", "alice@10.0.0.2"] ∧
    (["alice@10.0.0.2", "alice@10.0.0.2"] : List String) ≠ ["alice@10.0.0.2"] := by
  refine ⟨?_, ?_, ?_⟩ <;> decide

/-- Claim C7, amended: the followers collection is a list, and every
accepted inbound FOLLOW (sender-IP check passed, `TO` is the local user)
appends the sender, so processing the same FOLLOW twice appends the
sender twice — repeats accumulate instead of being absorbed. -/
theorem c7_follow_appends (now : Nat) (bl : List String) (fid : String)
    (st : LSNP.LSNPController) (kv : List (String × String)) (addr : String × Nat)
    (f : String)
    (hty : LSNP.kvGet kv "TYPE" = some "FOLLOW")
    (hfrom : LSNP.kvGet kv "FROM" = some f)
    (hsec : LSNP.failedSecurityCheck f addr.1 = false)
    (hto : LSNP.kvGetD kv "TO" "" = st.full_user_id) :
    (LSNP.handle_kv_message now bl fid st kv addr).1.followers = st.followers ++ [f] ∧
    (LSNP.handle_kv_message now bl fid
        (LSNP.handle_kv_message now bl fid st kv addr).1 kv addr).1.followers =
      st.followers ++ [f, f] := by
  have step : ∀ s : LSNP.LSNPController, s.full_user_id = st.full_user_id →
      (LSNP.handle_kv_message now bl fid s kv addr).1 =
        { s with
            inbox := s.inbox ++ ["User " ++ LSNP.shortName f ++ " started following you."],
            followers := s.followers ++ [f] } := by
    intro s hs
    unfold LSNP.handle_kv_message LSNP.handleFollow
    rw [hty]
    have hfromD : LSNP.kvGetD kv "FROM" "" = f := by
      unfold LSNP.kvGetD
      unfold LSNP.kvGet at hfrom
      rw [hfrom]
      rfl
    simp [hfromD, hsec, hto, hs]
  have h1 := step st rfl
  refine ⟨by rw [h1], ?_⟩
  have h2 := step (LSNP.handle_kv_message now bl fid st kv addr).1 (by rw [h1])
  rw [h2, h1]
  simp

/-- Witness for `c7_follow_appends` on the concrete state and FOLLOW
frame. -/
theorem c7_follow_appends_witness :
    (LSNP.handle_kv_message 0 [] "" LSNP.exState LSNP.exFollowKv LSNP.exAddr).1.followers =
      LSNP.exState.followers ++ ["alice@10.0.0.2"] ∧
    (LSNP.handle_kv_message 0 [] ""
        (LSNP.handle_kv_message 0 [] "" LSNP.exState LSNP.exFollowKv LSNP.exAddr).1
        LSNP.exFollowKv LSNP.exAddr).1.followers =
      LSNP.exState.followers ++ ["alice@10.0.0.2", "alice@10.0.0.2"] :=
  c7_follow_appends 0 [] "" LSNP.exState LSNP.exFollowKv LSNP.exAddr "alice@10.0.0.2"
    (by decide) (by decide) (by decide) (by decide)

/-- Claim C10: an inbound LIKE whose sender-IP check passes changes no
controller state and sends nothing (in particular no ACK); consequently
`toggle_like` leaves the like set unchanged whenever its waiter is never
signalled. -/
theorem c10_like_noop (now : Nat) (bl : List String) (fid : String)
    (st : LSNP.LSNPController) (kv : List (String × String)) (addr : String × Nat)
    (hty : LSNP.kvGet kv "TYPE" = some "LIKE")
    (hsec : LSNP.failedSecurityCheck (LSNP.kvGetD kv "FROM" "") addr.1 = false) :
    LSNP.handle_kv_message now bl fid st kv addr = (st, LSNP.noEffects) ∧
    (∀ (events0 : List (String × Bool)) (likes0 : List String) (pid ts : String)
        (sf ackAt : Nat → Bool), (∀ n, ackAt n = false) →
      (LSNP.toggle_like_waiter events0 likes0 pid ts sf ackAt).post_likes = likes0) := by
  constructor
  · unfold LSNP.handle_kv_message LSNP.handleLike
    rw [hty]
    simp [hsec]
  · intro events0 likes0 pid ts sf ackAt hack
    have loop : ∀ fuel (action : String) attempt events,
        (LSNP.toggleLikeLoop events likes0 pid action ts sf ackAt attempt
          fuel).post_likes = likes0 := by
      intro fuel
      induction fuel with
      | zero => intro action attempt events; rfl
      | succ fuel ih =>
        intro action attempt events
        unfold LSNP.toggleLikeLoop
        by_cases hsf : sf attempt
        · simp [hsf]
        · simp only [hsf, Bool.false_eq_true, if_false, hack attempt]
          exact ih action (attempt + 1) events
    unfold LSNP.toggle_like_waiter
    exact loop RETRY_COUNT _ 0 _

/-- Witness for `c10_like_noop` on a concrete LIKE frame from alice. -/
theorem c10_like_noop_witness :
    LSNP.handle_kv_message 5 [] "" LSNP.exState
        [("TYPE", "LIKE"), ("FROM", "alice@10.0.0.2"), ("TO", "bob@10.0.0.3"),
         ("POST_TIMESTAMP", "1730000000"), ("ACTION", "LIKE"), ("TIMESTAMP", "5"),
         ("TOKEN", "t")] LSNP.exAddr =
      (LSNP.exState, LSNP.noEffects) :=
  (c10_like_noop 5 [] "" LSNP.exState _ LSNP.exAddr (by decide) (by decide)).1

theorem pyListGet_nat {α : Type} (xs : List α) (i : Nat) (h : i < xs.length) :
    pyListGet xs (i : Int) = xs.get? i := by
  unfold pyListGet
  have h0 : ¬((i : Int) < 0) := by omega
  have hcond : (0 : Int) ≤ (i : Int) ∧ (i : Int) < (xs.length : Int) := by
    constructor
    · omega
    · exact_mod_cast h
  simp only [h0, if_false, hcond, and_self, if_true, Int.toNat_natCast]

theorem pyListSet_nat {α : Type} (xs : List α) (i : Nat) (a : α) (h : i < xs.length) :
    pyListSet xs (i : Int) a = some (xs.set i a) := by
  unfold pyListSet
  have h0 : ¬((i : Int) < 0) := by omega
  have hcond : (0 : Int) ≤ (i : Int) ∧ (i : Int) < (xs.length : Int) := by
    constructor
    · omega
    · exact_mod_cast h
  simp only [h0, if_false, hcond, and_self, if_true, Int.toNat_natCast]

/-- Claim C8, counterexample: `mallory@2.2.2.2`, who is not the recorded
owner `owner@1.1.1.1`, sends GROUP_ADD with a valid `group` token; the
local groups table changes (bob applies the transmitted member list). -/
theorem c8_nonowner_group_add :
    (LSNP.handle_kv_message 10 [] "" LSNP.exGroupState LSNP.exGroupAddKv
        LSNP.exMalloryAddr).1.groups =
      [{ LSNP.exGroup with
          members := ["bob@10.0.0.3", "owner@1.1.1.1", "dave@4.4.4.4"] }] ∧
    "mallory@2.2.2.2" ≠ LSNP.exGroup.owner_id ∧
    (LSNP.handle_kv_message 10 [] "" LSNP.exGroupState LSNP.exGroupAddKv
        LSNP.exMalloryAddr).1.groups ≠ LSNP.exGroupState.groups := by
  refine ⟨?_, ?_, ?_⟩ <;> decide

/-- Claim C8, amended: inbound GROUP_ADD and GROUP_REMOVE are honored
without any owner comparison: whenever the sender-IP check passes, the
token is `group`-valid and the local user is in the relevant member list,
GROUP_ADD overwrites the stored member list of the group found by id and
GROUP_REMOVE (with the local user among the removed) pops the group —
regardless of whether FROM is the recorded owner.  (Owner-only
enforcement exists only for locally issued REPL commands.) -/
theorem c8_no_owner_check (now : Nat) (bl : List String) (fid : String)
    (st : LSNP.LSNPController) (addr : String × Nat) (f : String)
    (kv : List (String × String)) (gi : Nat) (g : LSNP.Group)
    (hfrom : LSNP.kvGet kv "FROM" = some f)
    (hsec : LSNP.failedSecurityCheck f addr.1 = false) :
    (LSNP.kvGet kv "TYPE" = some "GROUP_ADD" →
      st.full_user_id ∈ pySplitStr ',' (LSNP.kvGetD kv "MEMBERS" "") →
      validate_token bl now (LSNP.kvGetD kv "TOKEN" "") "group" = true →
      st.full_user_id ∉ pySplitStr ',' (LSNP.kvGetD kv "ADD" "") →
      st.groups.findIdx? (fun g0 => g0.group_id == LSNP.kvGetD kv "GROUP_ID" "") = some gi →
      st.groups.get? gi = some g →
      (LSNP.handle_kv_message now bl fid st kv addr).1.groups =
        st.groups.set gi
          { g with members := pySplitStr ',' (LSNP.kvGetD kv "MEMBERS" "") }) ∧
    (LSNP.kvGet kv "TYPE" = some "GROUP_REMOVE" →
      validate_token bl now (LSNP.kvGetD kv "TOKEN" "") "group" = true →
      st.groups.findIdx? (fun g0 => g0.group_id == LSNP.kvGetD kv "GROUP_ID" "") = some gi →
      st.groups.get? gi = some g →
      st.full_user_id ∈ g.members →
      st.full_user_id ∈ pySplitStr ',' (LSNP.kvGetD kv "REMOVE" "") →
      (LSNP.handle_kv_message now bl fid st kv addr).1.groups =
        st.groups.eraseIdx gi) := by
  have hfromS : pyStr (LSNP.kvGet kv "FROM") = f := by
    rw [hfrom]; rfl
  have hlen : st.groups.get? gi = some g → gi < st.groups.length := by
    intro hg
    by_contra hge
    rw [List.get?_eq_none.mpr (by omega)] at hg
    exact Option.noConfusion hg
  constructor
  · intro hty hmem htok hadd hidx hget
    have hdisp : LSNP.handle_kv_message now bl fid st kv addr =
        LSNP.handleGroupAdd now bl st kv addr := by
      unfold LSNP.handle_kv_message
      rw [hty]
      simp
    rw [hdisp]
    unfold LSNP.handleGroupAdd
    rw [hfromS]
    dsimp only
    rw [hsec]
    simp only [Bool.false_eq_true, if_false]
    rw [if_neg (by simpa using hmem), htok]
    simp only [Bool.not_true, Bool.false_eq_true, if_false]
    rw [if_neg hadd, hidx]
    dsimp only
    rw [pyListGet_nat st.groups gi (hlen hget), hget]
    dsimp only
    rw [pyListSet_nat st.groups gi _ (hlen hget)]
  · intro hty htok hidx hget hmem hrem
    have hdisp : LSNP.handle_kv_message now bl fid st kv addr =
        LSNP.handleGroupRemove now bl st kv addr := by
      unfold LSNP.handle_kv_message
      rw [hty]
      simp
    rw [hdisp]
    unfold LSNP.handleGroupRemove
    rw [hfromS]
    dsimp only
    rw [hsec]
    simp only [Bool.false_eq_true, if_false]
    rw [hidx]
    dsimp only
    rw [hget]
    dsimp only
    rw [if_neg (by simpa using hmem), htok]
    simp only [Bool.not_true, Bool.false_eq_true, if_false]
    rw [if_pos hrem]

/-- Witness for `c8_no_owner_check`: the non-owner GROUP_ADD of
`c8_nonowner_group_add`, via the amended theorem. -/
theorem c8_no_owner_check_witness :
    (LSNP.handle_kv_message 10 [] "" LSNP.exGroupState LSNP.exGroupAddKv
        LSNP.exMalloryAddr).1.groups =
      LSNP.exGroupState.groups.set 0
        { LSNP.exGroup with
            members := pySplitStr ',' (LSNP.kvGetD LSNP.exGroupAddKv "MEMBERS" "") } :=
  (c8_no_owner_check 10 [] "" LSNP.exGroupState LSNP.exMalloryAddr "mallory@2.2.2.2"
      LSNP.exGroupAddKv 0 LSNP.exGroup (by decide) (by decide)).1
    (by decide) (by decide) (by decide) (by decide) (by decide) (by decide)

/-- Claim C5, counterexample: completing a transfer writes the bytes
under `transfer.filename` exactly — `"a.txt"`, not the collision-avoiding
`"a_1.txt"` the claim requires when a file of that name already exists;
the code never consults the downloads directory and `open(..., 'wb')`
overwrites. -/
theorem c5_overwrites_existing_name :
    (LSNP.complete_file_transfer 7
        { LSNP.exState with active_transfers :=
            [("f1", { LSNP.exTransfer with
                chunks := [(0, [65]), (1, [66])], received_chunks := 2, completed := true })] }
        { LSNP.exTransfer with
            chunks := [(0, [65]), (1, [66])], received_chunks := 2, completed := true }).2.writes =
      [("a.txt", [65, 66])] ∧
    ("a.txt" : String) ≠ "a_1.txt" := by
  constructor <;> decide

/-- Claim C5, amended: when a completed transfer has all chunks
`0 … total_chunks - 1` present, the receiver concatenates them in
increasing index order and writes the bytes under the transfer's
filename exactly as received (no sanitization, no collision suffix,
overwriting any existing file of that name), emits `FILE_RECEIVED` with
`STATUS: COMPLETE` to the sender (who must be in the peer table), and
removes the transfer from the active table; zero-byte reassemblies are
silently skipped. -/
theorem c5_completion (now : Nat) (st : LSNP.LSNPController) (t : LSNP.FileTransfer)
    (data : List Nat) (peer : LSNP.Peer)
    (hcomp : t.completed = true)
    (hdata : LSNP.collectChunks t.chunks (LSNP.intRange t.total_chunks) = some data)
    (hne : data ≠ [])
    (hpeer : st.peer_map.lookup t.sender_id = some peer)
    (hmem : (st.active_transfers.lookup t.file_id).isSome = true) :
    LSNP.complete_file_transfer now st t =
      ({ st with active_transfers := assocRemove st.active_transfers t.file_id },
        ⟨[⟨"TYPE: FILE_RECEIVED\nFROM: " ++ st.full_user_id ++ "\nTO: " ++ t.sender_id ++
            "\nFILEID: " ++ t.file_id ++ "\nSTATUS: " ++ "COMPLETE" ++ "\nTIMESTAMP: " ++
            natStr now ++ "\n", peer.ip, peer.port⟩],
          [(t.filename, data)]⟩) := by
  unfold LSNP.complete_file_transfer LSNP.FileTransfer.get_assembled_data
    LSNP.send_file_received
  rw [hcomp, hdata]
  simp only [Bool.not_true, Bool.false_eq_true, if_false]
  rw [if_neg hne, hpeer, if_pos hmem]

/-- Witness for `c5_completion` on the concrete two-chunk transfer. -/
theorem c5_completion_witness :
    LSNP.complete_file_transfer 7
        { LSNP.exState with active_transfers :=
            [("f1", { LSNP.exTransfer with
                chunks := [(0, [65]), (1, [66])], received_chunks := 2, completed := true })] }
        { LSNP.exTransfer with
            chunks := [(0, [65]), (1, [66])], received_chunks := 2, completed := true } =
      ({ LSNP.exState with active_transfers := [] },
        ⟨[⟨"TYPE: FILE_RECEIVED\nFROM: bob@10.0.0.3\nTO: alice@10.0.0.2\nFILEID: f1" ++
            "\nSTATUS: COMPLETE\nTIMESTAMP: 7\n", "10.0.0.2", 50999⟩],
          [("a.txt", [65, 66])]⟩) := by
  have h := c5_completion 7
    { LSNP.exState with active_transfers :=
        [("f1", { LSNP.exTransfer with
            chunks := [(0, [65]), (1, [66])], received_chunks := 2, completed := true })] }
    { LSNP.exTransfer with
        chunks := [(0, [65]), (1, [66])], received_chunks := 2, completed := true }
    [65, 66] LSNP.exAlice (by decide) (by decide) (by decide) (by decide) (by decide)
  rw [h]
  decide

/-- Claim C2, counterexample: a FOLLOW frame whose `FROM` suffix
(`10.0.0.2`) differs from the datagram source (`10.0.0.9`) is dropped,
yet handling the datagram still mutates the IP tracker: `_listen` calls
`log_connection_attempt` before any check. -/
theorem c2_tracker_counts_dropped_frames :
    (LSNP.receiveKvDatagram 0 [] "" LSNP.exState LSNP.exFollowKv
        ("10.0.0.9", 50999)).1.ip_tracker ≠ LSNP.exState.ip_tracker ∧
    LSNP.ipSuffix "alice@10.0.0.2" ≠ "10.0.0.9" := by
  constructor <;> decide

/-- Claim C2, amended: for every message type carrying a `FROM` field,
a frame whose `FROM` IP suffix differs from the datagram source IP is
dropped with zero effect on every controller collection (peers, inbox,
followers, groups, transfers, games, waiters, likes) and nothing is
sent — except that the IP tracker's connection-attempt counter is
incremented for the source address, as it is for every received
datagram. -/
theorem c2_sender_ip_binding (now : Nat) (bl : List String) (fid : String)
    (st : LSNP.LSNPController) (kv : List (String × String)) (addr : String × Nat)
    (ty f : String)
    (hty : LSNP.kvGet kv "TYPE" = some ty)
    (hmem : ty ∈ ["DM", "FOLLOW", "UNFOLLOW", "LIKE", "FILE_OFFER", "FILE_CHUNK",
      "FILE_RECEIVED", "FILE_ACCEPT", "FILE_REJECT", "GROUP_CREATE", "GROUP_ADD",
      "GROUP_REMOVE", "GROUP_MESSAGE", "TICTACTOE_INVITE", "TICTACTOE_MOVE",
      "TICTACTOE_RESULT"])
    (hfrom : LSNP.kvGet kv "FROM" = some f)
    (hat : f.data.contains '@' = true)
    (hmis : LSNP.ipSuffix f ≠ addr.1) :
    LSNP.receiveKvDatagram now bl fid st kv addr =
      ({ st with ip_tracker := st.ip_tracker.log_connection_attempt addr.1 },
        LSNP.noEffects) := by
  have hfne : f ≠ "" := by
    intro h
    rw [h] at hat
    simp at hat
  have hsec : LSNP.failedSecurityCheck f addr.1 = true := by
    unfold LSNP.failedSecurityCheck
    rw [if_pos ⟨hfne, hat⟩]
    simp only [bne_iff_ne, ne_eq, decide_eq_true_eq]
    exact hmis
  have hfromD : LSNP.kvGetD kv "FROM" "" = f := by
    unfold LSNP.kvGetD
    unfold LSNP.kvGet at hfrom
    rw [hfrom]
    rfl
  have hfromS : pyStr (LSNP.kvGet kv "FROM") = f := by
    rw [hfrom]
    rfl
  unfold LSNP.receiveKvDatagram
  simp only [List.mem_cons, List.not_mem_nil, or_false] at hmem
  rcases hmem with rfl | rfl | rfl | rfl | rfl | rfl | rfl | rfl | rfl | rfl | rfl | rfl |
    rfl | rfl | rfl | rfl
  all_goals
    unfold LSNP.handle_kv_message
    rw [hty]
    simp [LSNP.handleDM, LSNP.handleFollow, LSNP.handleUnfollow, LSNP.handleLike,
      LSNP.handleFileOffer, LSNP.handleFileChunk, LSNP.handleFileReceived,
      LSNP.handleFileAccept, LSNP.handleFileReject, LSNP.handleGroupCreate,
      LSNP.handleGroupAdd, LSNP.handleGroupRemove, LSNP.handleGroupMessage,
      LSNP.handleTTTInvite, LSNP.handleTTTMove, LSNP.handleTTTResult,
      hfromD, hfromS, hsec]

/-- Witness for `c2_sender_ip_binding`: the dropped FOLLOW of the
counterexample leaves everything but the tracker untouched. -/
theorem c2_sender_ip_binding_witness :
    LSNP.receiveKvDatagram 0 [] "" LSNP.exState LSNP.exFollowKv ("10.0.0.9", 50999) =
      ({ LSNP.exState with
          ip_tracker := LSNP.exState.ip_tracker.log_connection_attempt "10.0.0.9" },
        LSNP.noEffects) :=
  c2_sender_ip_binding 0 [] "" LSNP.exState LSNP.exFollowKv ("10.0.0.9", 50999)
    "FOLLOW" "alice@10.0.0.2" (by decide) (by decide) (by decide) (by decide) (by decide)

theorem assocUpd_fresh {α β : Type} [DecidableEq α] {d : List (α × β)} {k : α} (v : β)
    [BEq α] [LawfulBEq α] (h : d.lookup k = none) : assocUpd d k v = d ++ [(k, v)] := by
  induction d with
  | nil => rfl
  | cons p rest ih =>
    obtain ⟨k0, v0⟩ := p
    rw [List.lookup_cons] at h
    by_cases hk : k = k0
    · subst hk
      simp at h
    · have hb : (k == k0) = false := by
        cases hv : (k == k0)
        · rfl
        · exact absurd (by exact eq_of_beq hv) hk
      rw [hb] at h
      have hk0 : k0 ≠ k := fun he => hk he.symm
      simp only [assocUpd, hk0, if_false, List.cons_append]
      rw [ih h]

theorem assocRemove_append_left_none {α β : Type} [DecidableEq α] [BEq α] [LawfulBEq α]
    {a : List (α × β)} {k : α} (h : a.lookup k = none) (b : List (α × β)) :
    assocRemove (a ++ b) k = a ++ assocRemove b k := by
  induction a with
  | nil => rfl
  | cons p rest ih =>
    obtain ⟨k0, v0⟩ := p
    rw [List.lookup_cons] at h
    by_cases hk : k = k0
    · subst hk
      simp at h
    · have hb : (k == k0) = false := by
        cases hv : (k == k0)
        · rfl
        · exact absurd (by exact eq_of_beq hv) hk
      rw [hb] at h
      have hk0 : k0 ≠ k := fun he => hk he.symm
      simp only [List.cons_append, assocRemove, hk0, if_false, List.append_eq]
      rw [ih h]

theorem assocRemove_upd_fresh {α β : Type} [DecidableEq α] [BEq α] [LawfulBEq α]
    {d : List (α × β)} {k : α} (v : β) (h : d.lookup k = none) :
    assocRemove (assocUpd d k v) k = d := by
  rw [assocUpd_fresh v h, assocRemove_append_left_none h]
  simp [assocRemove]

theorem lookup_assocUpd_self {α β : Type} [DecidableEq α] [BEq α] [LawfulBEq α]
    (d : List (α × β)) (k : α) (v : β) : (assocUpd d k v).lookup k = some v := by
  induction d with
  | nil => simp [assocUpd, List.lookup_cons]
  | cons p rest ih =>
    obtain ⟨k0, v0⟩ := p
    by_cases hk : k0 = k
    · subst hk
      simp [assocUpd, List.lookup_cons]
    · simp only [assocUpd, hk, if_false, List.lookup_cons]
      have hb : (k == k0) = false := by
        cases hv : (k == k0)
        · rfl
        · exact absurd (eq_of_beq hv).symm hk
      rw [hb]
      exact ih

theorem ackRetryLoop_nofail (mid : String) (sendFails ackAt : Nat → Bool)
    (hnofail : ∀ n, sendFails n = false) :
    ∀ (fuel attempt : Nat) (events : List (String × Bool)),
      LSNP.ackRetryLoop events mid sendFails ackAt attempt fuel =
        ⟨assocRemove events mid, 1, false⟩ := by
  intro fuel
  induction fuel with
  | zero => intro attempt events; rfl
  | succ fuel ih =>
    intro attempt events
    unfold LSNP.ackRetryLoop
    rw [hnofail attempt]
    simp only [Bool.false_eq_true, if_false]
    by_cases hack : ackAt attempt = true
    · simp [hack]
    · simp only [hack, if_false]
      exact ih (attempt + 1) events

theorem unfollowRetryLoop_nofail (user_id mid : String) (sendFails ackAt : Nat → Bool)
    (hnofail : ∀ n, sendFails n = false) :
    ∀ (fuel attempt : Nat) (events : List (String × Bool)) (following : List String),
      following.contains user_id = false →
      LSNP.unfollowRetryLoop events following user_id mid sendFails ackAt attempt fuel =
        ⟨assocRemove events mid, following, 1, (List.range' attempt fuel).any ackAt⟩ := by
  intro fuel
  induction fuel with
  | zero => intro attempt events following _; rfl
  | succ fuel ih =>
    intro attempt events following habs
    unfold LSNP.unfollowRetryLoop
    rw [hnofail attempt]
    simp only [Bool.false_eq_true, if_false]
    cases hack : ackAt attempt with
    | true =>
      rw [if_pos rfl, if_neg (by simpa using habs)]
      simp [List.range'_succ, hack]
    | false =>
      rw [if_neg (by simp [hack])]
      rw [ih (attempt + 1) events following habs]
      simp [List.range'_succ, hack]

theorem toggleLikeLoop_nofail (pid tsKey : String) (sendFails ackAt : Nat → Bool)
    (hnofail : ∀ n, sendFails n = false) :
    ∀ (fuel : Nat) (action : String) (attempt : Nat) (events : List (String × Bool))
      (likes : List String),
      (action = "LIKE" ∨ (action = "UNLIKE" ∧ likes.contains pid = true)) →
      (LSNP.toggleLikeLoop events likes pid action tsKey sendFails ackAt attempt
          fuel).ack_events = assocRemove events tsKey ∧
      (LSNP.toggleLikeLoop events likes pid action tsKey sendFails ackAt attempt
          fuel).delAttempts = 1 ∧
      (LSNP.toggleLikeLoop events likes pid action tsKey sendFails ackAt attempt
          fuel).raised = false := by
  intro fuel
  induction fuel with
  | zero => intro action attempt events likes _; exact ⟨rfl, rfl, rfl⟩
  | succ fuel ih =>
    intro action attempt events likes hact
    unfold LSNP.toggleLikeLoop
    rw [hnofail attempt]
    simp only [Bool.false_eq_true, if_false]
    by_cases hack : ackAt attempt = true
    · simp only [hack, if_true]
      rcases hact with rfl | ⟨rfl, hcont⟩
      · simp
      · have hne : ("UNLIKE" : String) ≠ "LIKE" := by decide
        have hmem : pid ∈ likes := by simpa using hcont
        simp [hne, hmem]
    · simp only [hack, if_false]
      exact ih action (attempt + 1) events likes hact

theorem groupMsgMembers_nofail (mid : String) :
    ∀ (memberFails : List Bool), (∀ b ∈ memberFails, b = false) →
      ∀ (events : List (String × Bool)) (dels : Nat),
        LSNP.groupMsgMembers events mid dels memberFails = (events, dels, false) := by
  intro memberFails
  induction memberFails with
  | nil => intro _ events dels; rfl
  | cons b rest ih =>
    intro h events dels
    have hb : b = false := h b (List.mem_cons_self b rest)
    subst hb
    unfold LSNP.groupMsgMembers
    simp only [Bool.false_eq_true, if_false]
    exact ih (fun x hx => h x (List.mem_cons_of_mem _ hx)) events dels

theorem sendPostRegister_fresh :
    ∀ (mids : List String) (events : List (String × Bool)), mids.Nodup →
      (∀ m ∈ mids, events.lookup m = none) →
      LSNP.sendPostRegister events mids = events ++ mids.map (fun m => (m, false)) := by
  intro mids
  induction mids with
  | nil => intro events _ _; simp [LSNP.sendPostRegister]
  | cons m rest ih =>
    intro events hnd hfresh
    unfold LSNP.sendPostRegister
    rw [assocUpd_fresh false (hfresh m (List.mem_cons_self m rest))]
    have hrest : ∀ m2 ∈ rest, (events ++ [(m, false)]).lookup m2 = none := by
      intro m2 hm2
      rw [lookup_append_none (hfresh m2 (List.mem_cons_of_mem _ hm2))]
      have hne : m2 ≠ m := by
        intro he
        subst he
        exact (List.nodup_cons.mp hnd).1 hm2
      have hb : (m2 == m) = false := by
        cases hv : (m2 == m)
        · rfl
        · exact absurd (eq_of_beq hv) hne
      simp [List.lookup_cons, hb]
    rw [ih (events ++ [(m, false)]) (List.nodup_cons.mp hnd).2 hrest]
    simp

theorem sendPostCleanup_registered :
    ∀ (mids : List String) (events : List (String × Bool)) (dels : Nat), mids.Nodup →
      (∀ m ∈ mids, events.lookup m = none) →
      LSNP.sendPostCleanup (events ++ mids.map (fun m => (m, false))) dels mids =
        (events, dels + mids.length) := by
  intro mids
  induction mids with
  | nil => intro events dels _ _; simp [LSNP.sendPostCleanup]
  | cons m rest ih =>
    intro events dels hnd hfresh
    unfold LSNP.sendPostCleanup
    have hfreshm := hfresh m (List.mem_cons_self m rest)
    have hlook : (events ++ (m, false) :: rest.map (fun m => (m, false))).lookup m =
        some false := by
      rw [lookup_append_none hfreshm]
      simp [List.lookup_cons]
    simp only [List.map_cons, hlook, Option.isSome_some, if_true]
    have hrem : assocRemove (events ++ (m, false) :: rest.map (fun m => (m, false))) m =
        events ++ rest.map (fun m => (m, false)) := by
      rw [assocRemove_append_left_none hfreshm]
      simp [assocRemove]
    rw [hrem]
    have hrest : ∀ m2 ∈ rest, events.lookup m2 = none :=
      fun m2 hm2 => hfresh m2 (List.mem_cons_of_mem _ hm2)
    rw [ih events (dels + 1) (List.nodup_cons.mp hnd).2 hrest]
    simp only [List.length_cons]
    rw [show dels + 1 + rest.length = dels + (rest.length + 1) by omega]

/-- Claim C6, counterexample: with a single member whose sends raise,
`group_message` performs the `del` in its exception handler and then hits
the unconditional `del` of line 1374 on an already-removed key — removal
is attempted twice and the operation exits by `KeyError`; `send_dm`,
`follow`, `unfollow` and `toggle_like` with a raising send each exit by
exception with the waiter still registered; and an ACK-signalled
`unfollow` with no send failure at all still exits by `KeyError`,
because the loop's second `self.following.remove` (line 1509) runs on a
set from which `user_id` was already removed at line 1484. -/
theorem c6_waiter_not_single_removal :
    ((LSNP.group_message_waiter [] "m1" [true] false).delAttempts = 2 ∧
      (LSNP.group_message_waiter [] "m1" [true] false).raised = true) ∧
    ((LSNP.send_dm_waiter [] "m2" (fun _ => true) (fun _ => false)).ack_events =
        [("m2", false)] ∧
      (LSNP.send_dm_waiter [] "m2" (fun _ => true) (fun _ => false)).raised = true) ∧
    LSNP.follow_waiter [] "m3" (fun _ => true) (fun _ => false) =
      ⟨[("m3", false)], 0, true⟩ ∧
    LSNP.unfollow_waiter [] ["alice@10.0.0.2"] "alice@10.0.0.2" "m4"
      (fun _ => true) (fun _ => false) = ⟨[("m4", false)], [], 0, true⟩ ∧
    ((LSNP.toggle_like_waiter [] [] "p1" "ts1" (fun _ => true) (fun _ => false)).ack_events =
        [("ts1", false)] ∧
      (LSNP.toggle_like_waiter [] [] "p1" "ts1" (fun _ => true) (fun _ => false)).raised =
        true) ∧
    LSNP.unfollow_waiter [] ["alice@10.0.0.2"] "alice@10.0.0.2" "m5"
      (fun _ => false) (fun _ => true) = ⟨[], [], 1, true⟩ := by
  refine ⟨⟨?_, ?_⟩, ⟨?_, ?_⟩, ?_, ?_, ⟨?_, ?_⟩, ?_⟩ <;> decide

/-- Claim C6, amended: in executions where no socket send raises, each of
`send_dm`, `follow`, `toggle_like`, `group_message` and `send_post`
removes every waiter it registered exactly once — on ACK arrival or on
retry exhaustion — leaving the map as it was, and returns normally;
`unfollow` likewise attempts its `del` exactly once and restores the map,
but whenever an ACK arrives within the retry budget it then exits by
`KeyError`: its ACK branch re-runs `self.following.remove(user_id)` on a
set from which `user_id` was already removed before the loop, so only
the retry-exhaustion path returns normally.  When a send does raise,
`send_dm`/`follow`/`unfollow`/`toggle_like` exit by exception with the
waiter still in the map, and `group_message` can attempt the removal
twice, exiting with a `KeyError`. -/
theorem c6_waiter_lifecycle (events0 : List (String × Bool)) (mid : String)
    (sendFails ackAt : Nat → Bool) (likes0 : List String) (pid : String)
    (memberFails : List Bool) (mids : List String)
    (hfresh : events0.lookup mid = none)
    (hnofail : ∀ n, sendFails n = false)
    (hmemok : ∀ b ∈ memberFails, b = false)
    (hmnodup : mids.Nodup)
    (hmfresh : ∀ m ∈ mids, events0.lookup m = none) :
    LSNP.send_dm_waiter events0 mid sendFails ackAt = ⟨events0, 1, false⟩ ∧
    LSNP.follow_waiter events0 mid sendFails ackAt = ⟨events0, 1, false⟩ ∧
    (∀ (following0 : List String) (user_id : String), following0.Nodup →
      following0.contains user_id = true →
      LSNP.unfollow_waiter events0 following0 user_id mid sendFails ackAt =
        ⟨events0, following0.erase user_id, 1, (List.range RETRY_COUNT).any ackAt⟩) ∧
    ((LSNP.toggle_like_waiter events0 likes0 pid mid sendFails ackAt).ack_events = events0 ∧
      (LSNP.toggle_like_waiter events0 likes0 pid mid sendFails ackAt).delAttempts = 1 ∧
      (LSNP.toggle_like_waiter events0 likes0 pid mid sendFails ackAt).raised = false) ∧
    LSNP.group_message_waiter events0 mid memberFails false = ⟨events0, 1, false⟩ ∧
    LSNP.send_post_waiters events0 mids = (events0, mids.length) := by
  have hloop := ackRetryLoop_nofail mid sendFails ackAt hnofail RETRY_COUNT 0
    (assocUpd events0 mid false)
  have hrem := assocRemove_upd_fresh (β := Bool) false hfresh
  refine ⟨?_, ?_, ?_, ?_, ?_, ?_⟩
  · unfold LSNP.send_dm_waiter
    rw [hloop, hrem]
  · unfold LSNP.follow_waiter
    rw [hloop, hrem]
  · intro following0 user_id hnd hcont
    unfold LSNP.unfollow_waiter
    rw [if_pos hcont]
    have hnotmem : user_id ∉ following0.erase user_id := hnd.not_mem_erase
    have habs : (following0.erase user_id).contains user_id = false := by
      cases hv : (following0.erase user_id).contains user_id
      · rfl
      · exact absurd (by simpa using hv) hnotmem
    rw [unfollowRetryLoop_nofail user_id mid sendFails ackAt hnofail RETRY_COUNT 0
      (assocUpd events0 mid false) (following0.erase user_id) habs, hrem,
      List.range_eq_range']
  · unfold LSNP.toggle_like_waiter
    have hact : (if likes0.contains pid then "UNLIKE" else "LIKE") = "LIKE" ∨
        ((if likes0.contains pid then "UNLIKE" else "LIKE") = "UNLIKE" ∧
          likes0.contains pid = true) := by
      by_cases hc : likes0.contains pid = true
      · right
        exact ⟨by rw [if_pos hc], hc⟩
      · left
        simp only [hc]
        simp at hc
        simp [hc]
    have h := toggleLikeLoop_nofail pid mid sendFails ackAt hnofail RETRY_COUNT
      (if likes0.contains pid then "UNLIKE" else "LIKE") 0 (assocUpd events0 mid false)
      likes0 hact
    refine ⟨?_, h.2.1, h.2.2⟩
    rw [h.1, hrem]
  · unfold LSNP.group_message_waiter
    dsimp only
    rw [groupMsgMembers_nofail mid memberFails hmemok (assocUpd events0 mid false) 0]
    simp only [Bool.false_eq_true, if_false]
    rw [lookup_assocUpd_self events0 mid false]
    simp only [Option.isSome_some, if_true]
    rw [hrem]
  · unfold LSNP.send_post_waiters
    rw [sendPostRegister_fresh mids events0 hmnodup hmfresh,
      sendPostCleanup_registered mids events0 0 hmnodup hmfresh]
    simp

/-- Witness for `c6_waiter_lifecycle` at concrete inputs: one fresh
waiter key, no send failures, an ACK on the second attempt, an unfollow
of a known followee (which removes the waiter and the followee but exits
by `KeyError`), two send_post recipients. -/
theorem c6_waiter_lifecycle_witness :
    LSNP.send_dm_waiter [("old", true)] "m1" (fun _ => false) (fun n => n == 1) =
      ⟨[("old", true)], 1, false⟩ ∧
    LSNP.unfollow_waiter [("old", true)] ["alice@10.0.0.2"] "alice@10.0.0.2" "m1"
      (fun _ => false) (fun n => n == 1) = ⟨[("old", true)], [], 1, true⟩ ∧
    LSNP.send_post_waiters [("old", true)] ["p1", "p2"] = ([("old", true)], 2) :=
  have h := c6_waiter_lifecycle [("old", true)] "m1" (fun _ => false) (fun n => n == 1)
    [] "post0" [] ["p1", "p2"] (by decide) (fun n => rfl) (by decide) (by decide)
    (by decide)
  ⟨h.1,
    (h.2.2.1 ["alice@10.0.0.2"] "alice@10.0.0.2" (by decide) (by decide)).trans
      (by decide),
    h.2.2.2.2.2⟩
